import Mathlib

/-!
Verification of the SRE-skills-bench terraform benchmark core against its
natural-language specification.

The development shallowly embeds three parts of the code base:

* `runPipeline` embeds `TaskRunner.run` from
  `src/terraform_generation_bench/runner/run_task.py`: the staged
  fmt / fmt-check / init / validate / plan / apply / output / checks /
  idempotency-plan / destroy pipeline with its failure taxonomy.
  External side effects (subprocess calls, wall-clock timings, log files)
  are abstracted into a `PipelineEnv` describing the observable result of
  each external call; the embedding records which stages executed and which
  timing / exit-code keys were inserted, mirroring the mutations of the
  Python `result` dictionary.

* `extract_code_blocks` embeds `TerraformGenerator.extract_code_blocks`
  from `src/terraform_generation_bench/terraform_generator.py`, including
  the regex-driven extraction strategies, translated into executable
  character-list scanners with Python `re` semantics (leftmost,
  non-overlapping matches, greedy / lazy behaviour as in the source).

* `run_checks` and the `_check_*` family embed
  `src/terraform_generation_bench/runner/checks.py`; boto3 clients are
  abstracted into records of query functions returning `Except` values
  (a `ClientError` message or the response fields the code reads).
  Note that `checks.py` imports only `log_info, log_error,
  export_localstack_env, load_spec` from `.utils`; its calls to `log_warn`
  therefore raise `NameError` at runtime, which the embedding models as an
  `Except.error` carrying `nameErrorLogWarn`.
-/

/-! ### Basic string utilities shared by the embeddings -/

/-- Python substring test `needle in hay`. -/
def isSubL (needle hay : List Char) : Bool :=
  hay.tails.any fun t => needle.isPrefixOf t

/-- Python `needle in hay` on strings. -/
def hasSub (hay needle : String) : Bool :=
  isSubL needle.data hay.data

/-- Characters matched by Python `\s` (ASCII range). -/
def pySpace (c : Char) : Bool :=
  c = ' ' || c = '\t' || c = '\n' || c = '\r' || c = '\x0b' || c = '\x0c'

/-- Characters matched by Python `\w` (ASCII range). -/
def isWordChar (c : Char) : Bool :=
  c.isAlphanum || c = '_'

/-- Python `str.strip()` on a character list. -/
def pstrip (l : List Char) : List Char :=
  ((l.dropWhile pySpace).reverse.dropWhile pySpace).reverse

/-- Characters of a string literal. -/
def cs (s : String) : List Char :=
  s.data

/-- Python `str.lower()` on a character list. -/
def lowerL (l : List Char) : List Char :=
  l.map Char.toLower

/-- Python `str.lower()` on a string (kernel-computable). -/
def pyLower (s : String) : String :=
  String.mk (lowerL s.data)

/-! ### Pipeline embedding: `TaskRunner.run` -/

/-- Result of one `_run_terraform` invocation: the `(success, output,
exit_code)` triple it returns.  On a timeout or spawn exception the Python
helper returns `success = False`, an error message as `output`, and a null
exit code. -/
structure StageRes where
  success : Bool
  output : String
  exitCode : Option Int

/-- Observable behaviour of the external world during one `TaskRunner.run`:
the LocalStack health probe, the result of each terraform invocation, and
the outcome of `run_checks` (`Except.error` when it raises, otherwise the
`pass` flag of the returned check document). -/
structure PipelineEnv where
  localstack_ok : Bool
  fmt : StageRes
  fmt_check : StageRes
  init : StageRes
  validate : StageRes
  plan : StageRes
  apply : StageRes
  outputStep : StageRes
  checks : Except String Bool
  plan2 : StageRes
  destroy : StageRes

/-- The observable part of the `result` dictionary built by
`TaskRunner.run`: overall pass flag, failure category, the keys inserted
into `result["timings"]` and `result["tool_exit_codes"]` in order, and the
trace of stages actually executed (each `_run_terraform` / `run_checks`
call, in order). -/
structure RunResult where
  pass : Bool
  failure_category : Option String
  timingKeys : List String
  exitCodes : List (String × Option Int)
  executed : List String

/-- `TaskRunner.FAILURE_CATEGORIES` from `run_task.py`. -/
def FAILURE_CATEGORIES : List String :=
  ["SYNTAX", "INIT", "VALIDATE", "PLAN", "APPLY",
   "CHECKS", "IDEMPOTENCY", "DESTROY", "LOCALSTACK"]

/-- Embedding of `TaskRunner.run` (run_task.py, lines 138-387).  Each
early `return result` of the Python code corresponds to a record literal
spelling out the accumulated `timings` / `tool_exit_codes` keys and the
trace of external calls at that return point. -/
def runPipeline (env : PipelineEnv) : RunResult :=
  if env.localstack_ok = false then
    { pass := false, failure_category := some "LOCALSTACK",
      timingKeys := [], exitCodes := [], executed := [] }
  else
  -- Step 1: terraform fmt
  if env.fmt.success = false then
    { pass := false, failure_category := some "SYNTAX",
      timingKeys := ["fmt"],
      exitCodes := [("fmt", env.fmt.exitCode)],
      executed := ["fmt"] }
  else
  -- Step 1b: terraform fmt -check
  if env.fmt_check.success = false then
    { pass := false, failure_category := some "SYNTAX",
      timingKeys := ["fmt", "fmt_check"],
      exitCodes := [("fmt", env.fmt.exitCode), ("fmt_check", env.fmt_check.exitCode)],
      executed := ["fmt", "fmt_check"] }
  else
  -- Step 2: terraform init
  if env.init.success = false then
    { pass := false, failure_category := some "INIT",
      timingKeys := ["fmt", "fmt_check", "init"],
      exitCodes := [("fmt", env.fmt.exitCode), ("fmt_check", env.fmt_check.exitCode),
                    ("init", env.init.exitCode)],
      executed := ["fmt", "fmt_check", "init"] }
  else
  -- Step 3: terraform validate
  if env.validate.success = false then
    { pass := false, failure_category := some "VALIDATE",
      timingKeys := ["fmt", "fmt_check", "init", "validate"],
      exitCodes := [("fmt", env.fmt.exitCode), ("fmt_check", env.fmt_check.exitCode),
                    ("init", env.init.exitCode), ("validate", env.validate.exitCode)],
      executed := ["fmt", "fmt_check", "init", "validate"] }
  else
  -- Step 4: terraform plan
  if env.plan.success = false then
    { pass := false, failure_category := some "PLAN",
      timingKeys := ["fmt", "fmt_check", "init", "validate", "plan"],
      exitCodes := [("fmt", env.fmt.exitCode), ("fmt_check", env.fmt_check.exitCode),
                    ("init", env.init.exitCode), ("validate", env.validate.exitCode),
                    ("plan", env.plan.exitCode)],
      executed := ["fmt", "fmt_check", "init", "validate", "plan"] }
  else
  -- Step 5: terraform apply
  if env.apply.success = false then
    { pass := false, failure_category := some "APPLY",
      timingKeys := ["fmt", "fmt_check", "init", "validate", "plan", "apply"],
      exitCodes := [("fmt", env.fmt.exitCode), ("fmt_check", env.fmt_check.exitCode),
                    ("init", env.init.exitCode), ("validate", env.validate.exitCode),
                    ("plan", env.plan.exitCode), ("apply", env.apply.exitCode)],
      executed := ["fmt", "fmt_check", "init", "validate", "plan", "apply"] }
  else
  -- Step 6: terraform output -json runs next; no timing / exit-code entry
  -- is recorded for it and its failure does not terminate the run.
  -- Step 7: run_checks
  match env.checks with
  | Except.error _ =>
    { pass := false, failure_category := some "CHECKS",
      timingKeys := ["fmt", "fmt_check", "init", "validate", "plan", "apply"],
      exitCodes := [("fmt", env.fmt.exitCode), ("fmt_check", env.fmt_check.exitCode),
                    ("init", env.init.exitCode), ("validate", env.validate.exitCode),
                    ("plan", env.plan.exitCode), ("apply", env.apply.exitCode)],
      executed := ["fmt", "fmt_check", "init", "validate", "plan", "apply",
                   "output", "checks"] }
  | Except.ok checksPass =>
  if checksPass = false then
    { pass := false, failure_category := some "CHECKS",
      timingKeys := ["fmt", "fmt_check", "init", "validate", "plan", "apply", "checks"],
      exitCodes := [("fmt", env.fmt.exitCode), ("fmt_check", env.fmt_check.exitCode),
                    ("init", env.init.exitCode), ("validate", env.validate.exitCode),
                    ("plan", env.plan.exitCode), ("apply", env.apply.exitCode)],
      executed := ["fmt", "fmt_check", "init", "validate", "plan", "apply",
                   "output", "checks"] }
  else
  -- Step 8: second plan (idempotency check)
  if env.plan2.success = false ∧ hasSub (pyLower env.plan2.output) "timed out" = true then
    { pass := false, failure_category := some "IDEMPOTENCY",
      timingKeys := ["fmt", "fmt_check", "init", "validate", "plan", "apply",
                     "checks", "plan_2"],
      exitCodes := [("fmt", env.fmt.exitCode), ("fmt_check", env.fmt_check.exitCode),
                    ("init", env.init.exitCode), ("validate", env.validate.exitCode),
                    ("plan", env.plan.exitCode), ("apply", env.apply.exitCode),
                    ("plan_2", env.plan2.exitCode)],
      executed := ["fmt", "fmt_check", "init", "validate", "plan", "apply",
                   "output", "checks", "plan_2"] }
  else
  if hasSub env.plan2.output "No changes" = false ∧
     hasSub env.plan2.output "0 to add, 0 to change, 0 to destroy" = false then
    { pass := false, failure_category := some "IDEMPOTENCY",
      timingKeys := ["fmt", "fmt_check", "init", "validate", "plan", "apply",
                     "checks", "plan_2"],
      exitCodes := [("fmt", env.fmt.exitCode), ("fmt_check", env.fmt_check.exitCode),
                    ("init", env.init.exitCode), ("validate", env.validate.exitCode),
                    ("plan", env.plan.exitCode), ("apply", env.apply.exitCode),
                    ("plan_2", env.plan2.exitCode)],
      executed := ["fmt", "fmt_check", "init", "validate", "plan", "apply",
                   "output", "checks", "plan_2"] }
  else
  -- Python records "apply_2" timing / exit-code entries here, reusing the
  -- second plan data (run_task.py lines 344-346), then re-tests the output.
  if hasSub env.plan2.output "No changes" = false ∧
     hasSub env.plan2.output "Apply complete!" = false then
    { pass := false, failure_category := some "IDEMPOTENCY",
      timingKeys := ["fmt", "fmt_check", "init", "validate", "plan", "apply",
                     "checks", "plan_2", "apply_2"],
      exitCodes := [("fmt", env.fmt.exitCode), ("fmt_check", env.fmt_check.exitCode),
                    ("init", env.init.exitCode), ("validate", env.validate.exitCode),
                    ("plan", env.plan.exitCode), ("apply", env.apply.exitCode),
                    ("plan_2", env.plan2.exitCode), ("apply_2", env.plan2.exitCode)],
      executed := ["fmt", "fmt_check", "init", "validate", "plan", "apply",
                   "output", "checks", "plan_2"] }
  else
  -- Step 9: terraform destroy
  if env.destroy.success = false then
    { pass := false, failure_category := some "DESTROY",
      timingKeys := ["fmt", "fmt_check", "init", "validate", "plan", "apply",
                     "checks", "plan_2", "apply_2", "destroy"],
      exitCodes := [("fmt", env.fmt.exitCode), ("fmt_check", env.fmt_check.exitCode),
                    ("init", env.init.exitCode), ("validate", env.validate.exitCode),
                    ("plan", env.plan.exitCode), ("apply", env.apply.exitCode),
                    ("plan_2", env.plan2.exitCode), ("apply_2", env.plan2.exitCode),
                    ("destroy", env.destroy.exitCode)],
      executed := ["fmt", "fmt_check", "init", "validate", "plan", "apply",
                   "output", "checks", "plan_2", "destroy"] }
  else
  { pass := true, failure_category := none,
    timingKeys := ["fmt", "fmt_check", "init", "validate", "plan", "apply",
                   "checks", "plan_2", "apply_2", "destroy", "total"],
    exitCodes := [("fmt", env.fmt.exitCode), ("fmt_check", env.fmt_check.exitCode),
                  ("init", env.init.exitCode), ("validate", env.validate.exitCode),
                  ("plan", env.plan.exitCode), ("apply", env.apply.exitCode),
                  ("plan_2", env.plan2.exitCode), ("apply_2", env.plan2.exitCode),
                  ("destroy", env.destroy.exitCode)],
    executed := ["fmt", "fmt_check", "init", "validate", "plan", "apply",
                 "output", "checks", "plan_2", "destroy"] }

/-- The exact condition under which the idempotency region of
`TaskRunner.run` (lines 329-358) terminates the run with category
IDEMPOTENCY, as a function of the second plan's result. -/
def idempotencyFails (r : StageRes) : Bool :=
  (decide (r.success = false) && hasSub (pyLower r.output) "timed out")
  || (!(hasSub r.output "No changes") &&
      !(hasSub r.output "0 to add, 0 to change, 0 to destroy"))
  || (!(hasSub r.output "No changes") && !(hasSub r.output "Apply complete!"))

/-- A stage result for a successful external command. -/
def okStage : StageRes :=
  { success := true, output := "", exitCode := some 0 }

/-- A fully successful environment: every stage succeeds, the checks pass,
and the second plan reports the zero-change outcome. -/
def baseEnv : PipelineEnv :=
  { localstack_ok := true
    fmt := okStage
    fmt_check := okStage
    init := okStage
    validate := okStage
    plan := okStage
    apply := okStage
    outputStep := okStage
    checks := Except.ok true
    plan2 := { success := true
               output := "No changes. Your infrastructure matches the configuration."
               exitCode := some 0 }
    destroy := okStage }

/-- A run whose second plan command fails with an output that mentions a
timeout but also contains the zero-change marker. -/
def envTimeoutMarker : PipelineEnv :=
  { baseEnv with
    plan2 := { success := false
               output := "Error: request timed out. Previous state: No changes. 0 to add, 0 to change, 0 to destroy."
               exitCode := none } }

/-- A run in which the output-capture step fails but everything else
succeeds. -/
def envOutputFail : PipelineEnv :=
  { baseEnv with
    outputStep := { success := false, output := "output failed", exitCode := some 1 } }

/-- A run in which the post-apply checks return a failing result. -/
def envChecksFail : PipelineEnv :=
  { baseEnv with checks := Except.ok false }

/-- A run in which LocalStack is unavailable. -/
def envNoLocalstack : PipelineEnv :=
  { baseEnv with localstack_ok := false }

/-! ### Generator embedding: `TerraformGenerator.extract_code_blocks`

The extraction strategies of `terraform_generator.py` are regex driven; the
embedding translates each pattern into an executable character-list scanner
with Python `re` semantics: `finditer` yields leftmost non-overlapping
matches and resumes at each match end; `\w` and `\s` are taken over ASCII;
greedy `\s*\n` consumes up to the last newline of a whitespace run; lazy
bodies stop at the first position where the closing delimiter or lookahead
matches. -/

/-- A filename-to-content mapping with Python dict semantics (`files` in
`extract_code_blocks`). -/
abbrev FileMap := List (List Char × List Char)

/-- Python dict assignment `files[k] = v`: replaces in place if the key
exists, appends otherwise. -/
def dinsert (m : FileMap) (k v : List Char) : FileMap :=
  if m.any (fun p => p.1 == k) then
    m.map (fun p => bif p.1 == k then (k, v) else p)
  else m ++ [(k, v)]

/-- Python `k in files`. -/
def containsKey (m : FileMap) (k : List Char) : Bool :=
  m.any (fun p => p.1 == k)

/-- Does the text start with three backticks? -/
def startsWithTriple (l : List Char) : Bool :=
  ['`', '`', '`'].isPrefixOf l

/-- Split a character list at the first occurrence of three backticks
(the lazy `(.*?)` + closing fence of the patterns). -/
def splitAtTriple : List Char → Option (List Char × List Char)
  | [] => none
  | c :: t =>
    if startsWithTriple (c :: t) then some ([], t.drop 2)
    else
      match splitAtTriple t with
      | some (pre, post) => some (c :: pre, post)
      | none => none

/-- Greedy `cls*` followed by a mandatory newline (the `\s*\n` and
`[:\s]*\n` parts of the patterns): consumes the class run up to and
including its last newline; fails when the run has no newline. -/
def chompClass (cls : Char → Bool) (l : List Char) : Option (List Char) :=
  if '\n' ∈ l.takeWhile cls then
    some (((l.takeWhile cls).reverse.takeWhile (fun c => c != '\n')).reverse ++
      l.dropWhile cls)
  else none

/-- The `\s*\n` part of the patterns. -/
def chompWs (l : List Char) : Option (List Char) :=
  chompClass pySpace l

/-- The `[:\s]*\n` part of the patterns. -/
def chompColonWs (l : List Char) : Option (List Char) :=
  chompClass (fun c => c == ':' || pySpace c) l

/-- The capture group `(\w+\.tf)` under `re.IGNORECASE`: a nonempty word
run, a dot, and `tf` in either case; returns the captured text and the
remainder. -/
def parseFilename (l : List Char) : Option (List Char × List Char) :=
  if l.takeWhile isWordChar = [] then none
  else
    match l.dropWhile isWordChar with
    | '.' :: c1 :: c2 :: rest =>
      if (c1 = 't' ∨ c1 = 'T') ∧ (c2 = 'f' ∨ c2 = 'F') then
        some (l.takeWhile isWordChar ++ ['.', c1, c2], rest)
      else none
    | _ => none

/-- Case-insensitive literal prefix match; returns the remainder. -/
def prefixCi : List Char → List Char → Option (List Char)
  | [], l => some l
  | _ :: _, [] => none
  | p :: ps, c :: cr =>
    if Char.toLower c = Char.toLower p then prefixCi ps cr else none

/-- The `(?:terraform|hcl)?\s*\n` part of the fenced-block patterns, with
the regex backtracking order: `terraform`, then `hcl`, then the empty
alternative, each followed by `\s*\n`. -/
def parseLangWsHcl (l : List Char) : Option (List Char) :=
  match prefixCi (cs "hcl") l with
  | some rest =>
    match chompWs rest with
    | some r => some r
    | none => chompWs l
  | none => chompWs l

/-- The `(?:terraform|hcl)?\s*\n` part of the fenced-block patterns, with
the regex backtracking order: `terraform`, then `hcl`, then the empty
alternative, each followed by `\s*\n`. -/
def parseLangWs (l : List Char) : Option (List Char) :=
  match prefixCi (cs "terraform") l with
  | some rest =>
    match chompWs rest with
    | some r => some r
    | none => parseLangWsHcl l
  | none => parseLangWsHcl l

/-- Header of Method 1's pattern
`(?:(\w+\.tf)|terraform|hcl)?\s*\n` after the opening fence, with the
regex alternation order. -/
def parseHeaderM1 (l : List Char) : Option (Option (List Char) × List Char) :=
  match parseFilename l with
  | some (nm, rest) =>
    match chompWs rest with
    | some r => some (some nm, r)
    | none =>
      match parseLangWs l with
      | some r => some (none, r)
      | none => none
  | none =>
    match parseLangWs l with
    | some r => some (none, r)
    | none => none

/-- Attempt Method 1's pattern
`` ```(?:(\w+\.tf)|terraform|hcl)?\s*\n(.*?)``` `` at one position. -/
def tryM1At (l : List Char) : Option (Option (List Char) × List Char × List Char) :=
  if startsWithTriple l then
    match parseHeaderM1 (l.drop 3) with
    | some (nm, afterHdr) =>
      match splitAtTriple afterHdr with
      | some (body, rest) => some (nm, body, rest)
      | none => none
    | none => none
  else none

/-- `re.finditer` for Method 1: try the pattern at each position, resume
after each match end (fuelled by the input length). -/
def scanM1Aux : Nat → List Char → List (Option (List Char) × List Char)
  | 0, _ => []
  | _ + 1, [] => []
  | fuel + 1, c :: t =>
    match tryM1At (c :: t) with
    | some (nm, body, rest) => (nm, body) :: scanM1Aux fuel rest
    | none => scanM1Aux fuel t

/-- All Method 1 matches of a text. -/
def scanM1 (l : List Char) : List (Option (List Char) × List Char) :=
  scanM1Aux l.length l

/-- Python `str.endswith(".tf")` (case-sensitive). -/
def endsWithDotTf (l : List Char) : Bool :=
  (cs ".tf").isSuffixOf l

/-- Method 1 of `extract_code_blocks` (terraform_generator.py lines
45-59): fenced blocks; a named block is stored under its (possibly
`.tf`-suffixed) name, an unnamed block becomes `main.tf` when no file has
been recovered yet. -/
def method1Files (text : List Char) : FileMap :=
  (scanM1 text).foldl
    (fun files blk =>
      let code := pstrip blk.2
      match blk.1 with
      | some fn =>
        let fn' := if endsWithDotTf fn then fn else fn ++ cs ".tf"
        dinsert files fn' code
      | none =>
        if code ≠ [] ∧ files = [] then dinsert files (cs "main.tf") code
        else files)
    []

/-- Lazy `(.*?)` with a lookahead: captures the shortest prefix whose
remainder satisfies the lookahead; the lookahead consumes nothing. -/
def lazyUntil (look : List Char → Bool) : List Char → Option (List Char × List Char)
  | [] => if look [] then some ([], []) else none
  | c :: t =>
    if look (c :: t) then some ([], c :: t)
    else
      match lazyUntil look t with
      | some (body, rest) => some (c :: body, rest)
      | none => none

/-- Attempt Method 2's first bold pattern
`\*\*(\w+\.tf)\*\*[:\s]*\n```(?:terraform|hcl)?\s*\n(.*?)``` `
at one position. -/
def tryBoldAAt (l : List Char) : Option (List Char × List Char × List Char) :=
  match l with
  | '*' :: '*' :: t =>
    match parseFilename t with
    | some (nm, r1) =>
      match r1 with
      | '*' :: '*' :: r2 =>
        match chompColonWs r2 with
        | some r3 =>
          match r3 with
          | '`' :: '`' :: '`' :: r4 =>
            match parseLangWs r4 with
            | some r5 =>
              match splitAtTriple r5 with
              | some (body, rest) => some (nm, body, rest)
              | none => none
            | none => none
          | _ => none
        | none => none
      | _ => none
    | none => none
  | _ => none

/-- Lookahead `(?=\n\*\*\w+\.tf\*\*|$)` of Method 2's second bold pattern;
without `re.MULTILINE`, `$` holds at the end of the text or before a final
newline. -/
def boldLookahead (l : List Char) : Bool :=
  (match l with
   | '\n' :: '*' :: '*' :: t =>
     (match parseFilename t with
      | some (_, r) =>
        (match r with
         | '*' :: '*' :: _ => true
         | _ => false)
      | none => false)
   | _ => false)
  || l.isEmpty || l == ['\n']

/-- Attempt Method 2's second bold pattern
`\*\*(\w+\.tf)\*\*[:\s]*\n(.*?)(?=\n\*\*\w+\.tf\*\*|$)` at one position. -/
def tryBoldBAt (l : List Char) : Option (List Char × List Char × List Char) :=
  match l with
  | '*' :: '*' :: t =>
    match parseFilename t with
    | some (nm, r1) =>
      match r1 with
      | '*' :: '*' :: r2 =>
        match chompColonWs r2 with
        | some r3 =>
          match lazyUntil boldLookahead r3 with
          | some (body, rest) => some (nm, body, rest)
          | none => none
        | none => none
      | _ => none
    | none => none
  | _ => none

/-- Generic `re.finditer` scanner for patterns without `^` anchors. -/
def scanWith (tryAt : List Char → Option (List Char × List Char × List Char)) :
    Nat → List Char → List (List Char × List Char)
  | 0, _ => []
  | _ + 1, [] => []
  | fuel + 1, c :: t =>
    match tryAt (c :: t) with
    | some (nm, body, rest) => (nm, body) :: scanWith tryAt fuel rest
    | none => scanWith tryAt fuel t

/-- Split into lines at newlines (lossless: `joinNl` inverts it). -/
def splitNl : List Char → List (List Char)
  | [] => [[]]
  | '\n' :: t => [] :: splitNl t
  | c :: t =>
    match splitNl t with
    | [] => [[c]]
    | ln :: rest => (c :: ln) :: rest

/-- Rejoin lines with newlines. -/
def joinNl (ls : List (List Char)) : List Char :=
  (ls.intersperse ['\n']).flatten

/-- `re.sub(r'^```.*?\n', '', code, flags=re.MULTILINE)`: every line that
starts with a fence and is followed by a newline is deleted together with
its newline (the final line has no newline and is kept). -/
def subFenceLines (l : List Char) : List Char :=
  let ls := splitNl l
  joinNl ((ls.dropLast.filter (fun ln => !(startsWithTriple ln))) ++ [ls.getLastD []])

/-- `re.sub(r'\n```$', '', code, flags=re.MULTILINE)`: every line after the
first that consists exactly of three backticks is deleted together with the
newline before it. -/
def subTrailingFence (l : List Char) : List Char :=
  match splitNl l with
  | [] => []
  | first :: rest => joinNl (first :: rest.filter (fun ln => ln != cs "```"))

/-- First occurrence of `**` in a line; returns what follows it. -/
def findStars : List Char → Option (List Char)
  | '*' :: '*' :: t => some t
  | _ :: t => findStars t
  | [] => none

/-- One line under `re.sub(r'^\*\*.*?\*\*', '', code, flags=re.MULTILINE)`. -/
def stripBoldPairLine (ln : List Char) : List Char :=
  match ln with
  | '*' :: '*' :: t =>
    match findStars t with
    | some rest => rest
    | none => ln
  | _ => ln

/-- `re.sub(r'^\*\*.*?\*\*', '', code, flags=re.MULTILINE)`. -/
def subLeadingBoldPair (l : List Char) : List Char :=
  joinNl ((splitNl l).map stripBoldPairLine)

/-- One line under `re.sub(r'^\*\*', '', code, flags=re.MULTILINE)`. -/
def stripLeadBoldLine (ln : List Char) : List Char :=
  match ln with
  | '*' :: '*' :: t => t
  | _ => ln

/-- `re.sub(r'^\*\*', '', code, flags=re.MULTILINE)`. -/
def subLeadingBold (l : List Char) : List Char :=
  joinNl ((splitNl l).map stripLeadBoldLine)

/-- One line under `re.sub(r'\*\*$', '', code, flags=re.MULTILINE)`. -/
def stripTrailBoldLine (ln : List Char) : List Char :=
  if (cs "**").isSuffixOf ln then ln.dropLast.dropLast else ln

/-- `re.sub(r'\*\*$', '', code, flags=re.MULTILINE)`. -/
def subTrailingBold (l : List Char) : List Char :=
  joinNl ((splitNl l).map stripTrailBoldLine)

/-- The case-sensitive `\w+\.tf` used by the header-rejection checks. -/
def parseFilenameCs (l : List Char) : Option (List Char × List Char) :=
  let w := l.takeWhile isWordChar
  if w = [] then none
  else
    match l.dropWhile isWordChar with
    | '.' :: 't' :: 'f' :: rest => some (w ++ cs ".tf", rest)
    | _ => none

/-- `re.match(r'^\*\*\w+\.tf\*\*$', s)` as a Boolean, for the
already-stripped code (so `$` is plain end of text). -/
def isBoldHeaderOnly (l : List Char) : Bool :=
  match l with
  | '*' :: '*' :: t =>
    match parseFilenameCs t with
    | some (_, r) => r == cs "**"
    | none => false
  | _ => false

/-- `re.match(r'^\*\*\w+\.tf\*\*', s)` as a Boolean (prefix only). -/
def isBoldHeaderStart (l : List Char) : Bool :=
  match l with
  | '*' :: '*' :: t =>
    match parseFilenameCs t with
    | some (_, r) =>
      (match r with
       | '*' :: '*' :: _ => true
       | _ => false)
    | none => false
  | _ => false

/-- Does the code start with `**`? -/
def startsWithStars (l : List Char) : Bool :=
  match l with
  | '*' :: '*' :: _ => true
  | _ => false

/-- Shared loop body of Method 2 (terraform_generator.py lines 74-91):
skip pure bold headers, strip markdown markers, insert when the cleaned
code is substantial. -/
def boldLoopBody (files : FileMap) (nm rawCode : List Char) : FileMap :=
  let code := pstrip rawCode
  if isBoldHeaderOnly (pstrip code) then files
  else
    let code := subFenceLines code
    let code := subTrailingFence code
    let code := subLeadingBoldPair code
    let code := subLeadingBold code
    let code := subTrailingBold code
    if code ≠ [] ∧ 20 < code.length ∧ startsWithStars code = false ∧
        isBoldHeaderStart code = false then
      dinsert files (lowerL nm) code
    else files

/-- Method 2 of `extract_code_blocks` (lines 61-94): the two bold patterns
in order, stopping after the first that brings the file count to three. -/
def method2 (text : List Char) (files : FileMap) : FileMap :=
  let files :=
    (scanWith tryBoldAAt text.length text).foldl
      (fun fs b => boldLoopBody fs b.1 b.2) files
  if 3 ≤ files.length then files
  else
    (scanWith tryBoldBAt text.length text).foldl
      (fun fs b => boldLoopBody fs b.1 b.2) files

/-- The optional `(?:##?\s+)?` group: candidate remainders in the regex
backtracking order (two hashes, one hash, empty). -/
def hashCandidates (l : List Char) : List (List Char) :=
  (match l with
   | '#' :: '#' :: r =>
     if (r.takeWhile pySpace).isEmpty = false then [r.dropWhile pySpace] else []
   | _ => []) ++
  (match l with
   | '#' :: r =>
     if (r.takeWhile pySpace).isEmpty = false then [r.dropWhile pySpace] else []
   | _ => []) ++ [l]

/-- Core of Method 2b's first pattern after the `(?:^|\n)` prefix:
`(?:##?\s+)?(\w+\.tf)[:\s]*\n```(?:terraform|hcl)?\s*\n(.*?)``` `. -/
def tryHdr1Core (l : List Char) : Option (List Char × List Char × List Char) :=
  (hashCandidates l).findSome? fun l2 =>
    match parseFilename l2 with
    | some (nm, r1) =>
      match chompColonWs r1 with
      | some r2 =>
        match r2 with
        | '`' :: '`' :: '`' :: r3 =>
          match parseLangWs r3 with
          | some r4 =>
            match splitAtTriple r4 with
            | some (body, rest) => some (nm, body, rest)
            | none => none
          | none => none
        | _ => none
      | none => none
    | none => none

/-- `(?:^|\n)` under `re.MULTILINE`: at a line start the zero-width `^`
alternative is tried first, then a literal newline is consumed. -/
def tryHdr1At (atLineStart : Bool) (l : List Char) : Option (List Char × List Char × List Char) :=
  match (if atLineStart then tryHdr1Core l else none) with
  | some r => some r
  | none =>
    match l with
    | '\n' :: t => tryHdr1Core t
    | _ => none

/-- Scanner for Method 2b's first pattern: tracks whether the current
position is a line start; a match ends at a closing fence, so scanning
resumes off a line start. -/
def scanHdr1Aux : Nat → Bool → List Char → List (List Char × List Char)
  | 0, _, _ => []
  | _ + 1, _, [] => []
  | fuel + 1, als, c :: t =>
    match tryHdr1At als (c :: t) with
    | some (nm, body, rest) => (nm, body) :: scanHdr1Aux fuel false rest
    | none => scanHdr1Aux fuel (c == '\n') t

/-- All matches of Method 2b's first pattern. -/
def scanHdr1 (l : List Char) : List (List Char × List Char) :=
  scanHdr1Aux l.length true l

/-- The optional `(?:File:?\s*)?` group: candidate remainders in the regex
backtracking order (with colon, without colon, empty). -/
def fileCandidates (l : List Char) : List (List Char) :=
  match prefixCi (cs "file") l with
  | some r1 =>
    (match r1 with
     | ':' :: r2 => [r2.dropWhile pySpace, r1.dropWhile pySpace]
     | _ => [r1.dropWhile pySpace]) ++ [l]
  | none => [l]

/-- Lookahead `(?=\n(?:##?\s+)?(?:File:?\s*)?\w+\.tf|$)` of Method 2b's
second pattern; under `re.MULTILINE`, `$` holds before every newline and at
the end, so the lookahead holds exactly at the end of the text or before
any newline. -/
def hdr2Lookahead (l : List Char) : Bool :=
  match l with
  | [] => true
  | '\n' :: _ => true
  | _ => false

/-- Core of Method 2b's second pattern after the `(?:^|\n)` prefix:
`(?:##?\s+)?(?:File:?\s*)?(\w+\.tf)[:\s]*\n(.*?)(?=...|$)`. -/
def tryHdr2Core (l : List Char) : Option (List Char × List Char × List Char) :=
  (hashCandidates l).findSome? fun l2 =>
    (fileCandidates l2).findSome? fun l3 =>
      match parseFilename l3 with
      | some (nm, r1) =>
        match chompColonWs r1 with
        | some r2 =>
          match lazyUntil hdr2Lookahead r2 with
          | some (body, rest) => some (nm, body, rest)
          | none => none
        | none => none
      | none => none

/-- `(?:^|\n)` handling for Method 2b's second pattern. -/
def tryHdr2At (atLineStart : Bool) (l : List Char) : Option (List Char × List Char × List Char) :=
  match (if atLineStart then tryHdr2Core l else none) with
  | some r => some r
  | none =>
    match l with
    | '\n' :: t => tryHdr2Core t
    | _ => none

/-- Is the position after this captured body a line start?  The match of
Method 2b's second pattern ends right after the body (the lookahead
consumes nothing); an empty body means the last consumed character was the
mandatory newline of `[:\s]*\n`. -/
def flagAfter (body : List Char) : Bool :=
  match body.getLast? with
  | some c => c == '\n'
  | none => true

/-- Scanner for Method 2b's second pattern. -/
def scanHdr2Aux : Nat → Bool → List Char → List (List Char × List Char)
  | 0, _, _ => []
  | _ + 1, _, [] => []
  | fuel + 1, als, c :: t =>
    match tryHdr2At als (c :: t) with
    | some (nm, body, rest) => (nm, body) :: scanHdr2Aux fuel (flagAfter body) rest
    | none => scanHdr2Aux fuel (c == '\n') t

/-- All matches of Method 2b's second pattern. -/
def scanHdr2 (l : List Char) : List (List Char × List Char) :=
  scanHdr2Aux l.length true l

/-- Method 2b of `extract_code_blocks` (lines 96-124): file headers
followed by a fenced block, then (still short of three files) file headers
followed by plain content. -/
def method2b (text : List Char) (files : FileMap) : FileMap :=
  let files :=
    (scanHdr1 text).foldl
      (fun fs b =>
        let code := pstrip b.2
        if code ≠ [] ∧ 20 < code.length then dinsert fs (lowerL b.1) code else fs)
      files
  if files.length < 3 then
    (scanHdr2 text).foldl
      (fun fs b =>
        let code := pstrip b.2
        let code := subFenceLines code
        let code := subTrailingFence code
        if code ≠ [] ∧ 20 < code.length then dinsert fs (lowerL b.1) code else fs)
      files
  else files

/-- One separator of `re.split(r'\n(?:---|===|```)', text)`. -/
def sepAt (l : List Char) : Option (List Char) :=
  match l with
  | '\n' :: '-' :: '-' :: '-' :: t => some t
  | '\n' :: '=' :: '=' :: '=' :: t => some t
  | '\n' :: '`' :: '`' :: '`' :: t => some t
  | _ => none

/-- `re.split(r'\n(?:---|===|```)', text)` (fuelled by the input length). -/
def splitSeps : Nat → List Char → List (List Char)
  | 0, l => [l]
  | _ + 1, [] => [[]]
  | fuel + 1, c :: t =>
    match sepAt (c :: t) with
    | some rest => [] :: splitSeps fuel rest
    | none =>
      match splitSeps fuel t with
      | [] => [[c]]
      | s :: ss => (c :: s) :: ss

/-- `re.search(r'(\w+\.tf)', line, re.IGNORECASE)`: leftmost filename-like
token of a line. -/
def findTfName : List Char → Option (List Char)
  | [] => none
  | c :: t =>
    match parseFilename (c :: t) with
    | some (nm, _) => some nm
    | none => findTfName t

/-- `section.split('\n')[0]`. -/
def firstLine (l : List Char) : List Char :=
  l.takeWhile (fun c => c != '\n')

/-- `'\n'.join(section.split('\n')[1:])`. -/
def afterFirstLine (l : List Char) : List Char :=
  match l.dropWhile (fun c => c != '\n') with
  | [] => []
  | _ :: t => t

/-- Method 3 of `extract_code_blocks` (lines 126-141): split on separator
lines, sniff a filename from each section's first line. -/
def method3 (text : List Char) (files : FileMap) : FileMap :=
  (splitSeps text.length text).foldl
    (fun fs sectionText =>
      match findTfName (firstLine sectionText) with
      | some nm =>
        let code := pstrip (afterFirstLine sectionText)
        if code ≠ [] ∧ 10 < code.length then dinsert fs (lowerL nm) code else fs
      | none => fs)
    files

/-- Lookahead `(?=\n\w+\.tf|$)` of Method 4's pattern (no `re.MULTILINE`:
`$` is the end of the text or before a final newline). -/
def m4Lookahead (l : List Char) : Bool :=
  (match l with
   | '\n' :: t => (parseFilename t).isSome
   | _ => false)
  || l.isEmpty || l == ['\n']

/-- Attempt Method 4's pattern
`{filename}[:\s]*\n(.*?)(?=\n\w+\.tf|$)` (filename literal, case
insensitive) at one position. -/
def tryM4At (fn : List Char) (l : List Char) : Option (List Char) :=
  match prefixCi fn l with
  | some r1 =>
    match chompColonWs r1 with
    | some r2 =>
      match lazyUntil m4Lookahead r2 with
      | some (body, _) => some body
      | none => none
    | none => none
  | none => none

/-- `re.search` for Method 4's pattern: the first position where it
matches. -/
def searchM4 : Nat → List Char → List Char → Option (List Char)
  | 0, _, _ => none
  | _ + 1, _, [] => none
  | fuel + 1, fn, c :: t =>
    match tryM4At fn (c :: t) with
    | some body => some body
    | none => searchM4 fuel fn t

/-- The canonical required files. -/
def requiredFiles : List (List Char) :=
  [cs "main.tf", cs "variables.tf", cs "outputs.tf"]

/-- One iteration of Method 4's loop over the missing canonical files. -/
def method4Step (text : List Char) (fs : FileMap) (fn : List Char) : FileMap :=
  match searchM4 text.length fn text with
  | some raw =>
    let code := pstrip raw
    let code := subFenceLines code
    let code := subTrailingFence code
    if code ≠ [] ∧ 10 < code.length then dinsert fs fn code else fs
  | none => fs

/-- Method 4 of `extract_code_blocks` (lines 143-162): for each canonical
file still missing, re-scan the raw text once with a filename-anchored
pattern. -/
def method4 (text : List Char) (files : FileMap) : FileMap :=
  let missing := requiredFiles.filter (fun f => containsKey files f = false)
  missing.foldl (method4Step text) files

/-- A fenced markdown block carrying a filename marker, as produced by a
well-behaved model response: three backticks, the filename, a newline, the
body, and a closing fence. -/
def fenceText (nm body : List Char) : List Char :=
  ['`', '`', '`'] ++ nm ++ '\n' :: (body ++ ['`', '`', '`'])

/-- Embedding of `TerraformGenerator.extract_code_blocks`
(terraform_generator.py lines 26-165): Method 1 always runs; Methods 2, 2b
and 3 run only while fewer than three files have been recovered; Method 4
then fills in canonical files that are still missing. -/
def extract_code_blocks (text : List Char) : FileMap :=
  let files := method1Files text
  let files := if files = [] ∨ files.length < 3 then method2 text files else files
  let files := if files = [] ∨ files.length < 3 then method2b text files else files
  let files := if files = [] ∨ files.length < 3 then method3 text files else files
  method4 text files

/-- A response consisting of three canonical fenced blocks surrounded by
arbitrary prose. -/
def renderThree (p0 b1 p1 b2 p2 b3 p3 : List Char) : List Char :=
  p0 ++ fenceText (cs "main.tf") b1 ++ p1 ++ fenceText (cs "variables.tf") b2 ++
    p2 ++ fenceText (cs "outputs.tf") b3 ++ p3

/-- A response with three distinct named fenced blocks (a.tf, b.tf, c.tf)
and one prose line mentioning `main.tf:`. -/
def t7Response : List Char :=
  cs "```a.tf\nAAAAAAAAAAAAAAAAAAAAAAAAA\n```\nmain.tf:\nBBBBBBBBBBBB\n```b.tf\nCCCCC\n```\n```c.tf\nDDDDD\n```"

/-- The raw response of the C8 counterexample: an unnamed fenced block
(recovered as `main.tf` by strategy 1) followed by a section whose first
line names `main.tf` (matched by strategy 3). -/
def t8Response : List Char :=
  cs "```\nresource X\n``` main.tf\nBBBBBBBBBBBBBB"

/-! ### Verification embedding: `runner/checks.py`

The checker functions query boto3 clients; the embedding abstracts each
client into a record of query functions returning `Except`: an error value
carries the `ClientError` text (as interpolated into error messages by
`str(e)`), a success value carries the response fields the code reads.
`checks.py` imports only `log_info, log_error, export_localstack_env,
load_spec` from `.utils` (line 10); each of its `log_warn(...)` calls
therefore raises `NameError` at runtime, modelled as `Except.error
nameErrorLogWarn`. -/

/-- The error raised whenever checks.py reaches one of its `log_warn`
calls: `log_warn` is not imported there, so Python raises a NameError. -/
def nameErrorLogWarn : String := "NameError: name log_warn is not defined"

/-- A value of the terraform outputs document: `outputs[k]["value"]` is a
string or a list of strings in the outputs the checkers read. -/
inductive OutVal where
  | s : String → OutVal
  | ls : List String → OutVal

/-- The parsed `outputs.json` document. -/
abbrev TfOutputs := List (String × OutVal)

/-- `outputs.get(k, {}).get('value')` for scalar outputs. -/
def getOutStr (o : TfOutputs) (k : String) : Option String :=
  match List.lookup k o with
  | some (OutVal.s v) => some v
  | _ => none

/-- `outputs.get(k, {}).get('value', [])` for list outputs. -/
def getOutList (o : TfOutputs) (k : String) : List String :=
  match List.lookup k o with
  | some (OutVal.ls v) => v
  | _ => []

/-- Python truthiness of an optional string (`None` and `""` are falsy). -/
def truthyStr : Option String → Bool
  | none => false
  | some s => s != ""

/-- Python truthiness of an optional integer (`None` and `0` are falsy). -/
def truthyInt : Option Int → Bool
  | none => false
  | some n => n != 0

/-- Python truthiness of an optional Boolean. -/
def truthyBool : Option Bool → Bool
  | none => false
  | some b => b

/-- Python `a or b` on optional strings. -/
def pyOr (a b : Option String) : Option String :=
  if truthyStr a then a else b

/-- Python `s.split('/')[-1]`. -/
def lastSegment (s : String) : String :=
  (s.splitOn "/").getLastD ""

/-- Python `s.startswith(pre)` (kernel-computable). -/
def pyStartsWith (s pre : String) : Bool :=
  pre.data.isPrefixOf s.data

/-- The `checks:` mapping of a task spec, restricted to the keys the
checkers read; an absent key is `none`. -/
structure Checks where
  vpc_count : Option Int := none
  subnet_count : Option Int := none
  instance_count : Option Int := none
  security_group_count : Option Int := none
  ingress_rule_count : Option Int := none
  egress_rule_count : Option Int := none
  versioning_enabled : Option Bool := none
  lifecycle_rule_count : Option Int := none
  public_access_block_count : Option Int := none
  bucket_policy_count : Option Int := none
  cors_configuration_count : Option Int := none
  internet_gateway_count : Option Int := none
  route_table_count : Option Int := none
  nat_gateway_count : Option Int := none
  public_route_table_count : Option Int := none
  private_route_table_count : Option Int := none
  policy_count : Option Int := none
  role_policy_attachment_count : Option Int := none

/-- A loaded task spec (`load_spec`), restricted to the fields
`run_checks` reads. -/
structure Spec where
  checks : Checks

/-- A subnet as read by the checkers (`subnet['VpcId']`). -/
structure SubnetR where
  vpcId : String

/-- An EC2 instance as read by the checkers (`inst['SubnetId']`,
`instance.get('IamInstanceProfile')`). -/
structure InstanceR where
  subnetId : String
  iamInstanceProfile : Option String

/-- One reservation of a `describe_instances` response. -/
structure ReservationR where
  instances : List InstanceR

/-- A security group as read by `_check_security_group`. -/
structure SecurityGroupR where
  vpcId : String
  ipPermissions : List String
  ipPermissionsEgress : List String

/-- An internet gateway: the `VpcId` of each attachment
(`att.get('VpcId')`). -/
structure IgwR where
  attachments : List (Option String)

/-- One route of a route table; `none` models an absent key. -/
structure RouteR where
  destinationCidrBlock : Option String
  gatewayId : Option String
  natGatewayId : Option String

/-- A route table: its routes and the `SubnetId` of each association. -/
structure RouteTableR where
  routes : List RouteR
  associations : List (Option String)

/-- A NAT gateway (`nat.get('SubnetId')`). -/
structure NatGatewayR where
  subnetId : Option String

/-- An IAM role: its `AssumeRolePolicyDocument` rendered to text (the code
only tests membership of `ec2.amazonaws.com` in its lowercase form). -/
structure RoleR where
  assumeRolePolicyDocument : String

/-- An IAM instance profile: the names of its attached roles. -/
structure InstanceProfileR where
  roles : List String

/-- The EC2 control-plane queries issued by the checkers, with the filter
arguments used at each call site. -/
structure Ec2Client where
  describe_vpcs : List String → Except String (List String)
  describe_subnets_by_vpc_tag : String → String → Except String (List SubnetR)
  describe_instances_by_tag_vpc : String → String → Except String (List ReservationR)
  describe_security_groups : List String → String → Except String (List SecurityGroupR)
  describe_internet_gateways : List String → Except String (List IgwR)
  describe_route_tables_by_ids : List String → Except String (List RouteTableR)
  describe_route_tables_by_vpc : String → Except String (List RouteTableR)
  describe_nat_gateways : List String → Except String (List NatGatewayR)
  describe_instances_by_ids : List String → Except String (List ReservationR)
  describe_subnets_by_ids_tag : List String → String → Except String (List SubnetR)

/-- The S3 control-plane queries issued by `_check_s3_tasks`. -/
structure S3Client where
  head_bucket : String → Except String Unit
  get_bucket_versioning : String → Except String (Option String)
  get_bucket_lifecycle : String → Except String (List String)
  get_public_access_block : String → Except String String
  get_bucket_policy : String → Except String (Option String)
  get_bucket_cors : String → Except String (List String)

/-- The IAM control-plane queries issued by the checkers. -/
structure IamClient where
  get_role : String → Except String RoleR
  get_policy : String → Except String Unit
  list_attached_role_policies : String → Except String (List String)
  get_instance_profile : String → Except String InstanceProfileR

/-- A value of the free-form `details` map. -/
inductive DetailVal where
  | str : Option String → DetailVal
  | strList : List String → DetailVal
  | blob : String → DetailVal

/-- The `details` dictionary of a checker. -/
abbrev Details := List (String × DetailVal)

/-- Python dict assignment for string-keyed maps. -/
def kinsert {α : Type} (m : List (String × α)) (k : String) (v : α) :
    List (String × α) :=
  if m.any (fun p => p.1 == k) then
    m.map (fun p => bif p.1 == k then (k, v) else p)
  else m ++ [(k, v)]

/-- The five-tuple `(pass_check, errors, counts, wiring, details)` built by
each checker. -/
structure CkOut where
  pass : Bool
  errors : List String
  counts : List (String × Int)
  wiring : List (String × Bool)
  details : Details

/-- The subnet assertion block of `_check_vpc_3subnets_3ec2` (checks.py
lines 182-206): on a query failure the error is recorded and the pass flag
forced false, but evaluation continues. -/
def vpc3_subnets_section (ec2 : Ec2Client) (task_id vpc_id : String)
    (expected : Checks) (st : CkOut) : CkOut :=
  match ec2.describe_subnets_by_vpc_tag vpc_id task_id with
  | Except.error e =>
    { st with
      pass := false,
      errors := st.errors ++ ["Failed to describe subnets: " ++ e] }
  | Except.ok subnets =>
    let subnet_count : Int := subnets.length
    let expected_subnets := expected.subnet_count.getD 3
    let mm := subnet_count ≠ expected_subnets
    let st := { st with
      pass := if mm then false else st.pass,
      errors := st.errors ++ (if mm then
        ["Expected " ++ toString expected_subnets ++ " subnets, found " ++
          toString subnet_count] else []),
      counts := kinsert st.counts "subnet" subnet_count }
    let badSubnets := subnets.filter (fun s => s.vpcId ≠ vpc_id)
    let st := { st with
      pass := if badSubnets.isEmpty then st.pass else false,
      errors := st.errors ++ badSubnets.map
        (fun _ => "Subnet wiring error: subnet not in expected VPC") }
    { st with wiring := kinsert st.wiring "subnets_in_vpc" true }

/-- The instance assertion block of `_check_vpc_3subnets_3ec2` (checks.py
lines 208-238). -/
def vpc3_instances_section (ec2 : Ec2Client) (task_id vpc_id : String)
    (expected : Checks) (subnet_ids : List String) (st : CkOut) : CkOut :=
  match ec2.describe_instances_by_tag_vpc task_id vpc_id with
  | Except.error e =>
    { st with
      pass := false,
      errors := st.errors ++ ["Failed to describe instances: " ++ e] }
  | Except.ok reservations =>
    let instances := reservations.foldl (fun acc r => acc ++ r.instances) []
    let instance_count : Int := instances.length
    let expected_instances := expected.instance_count.getD 3
    let mm := instance_count ≠ expected_instances
    let st := { st with
      pass := if mm then false else st.pass,
      errors := st.errors ++ (if mm then
        ["Expected " ++ toString expected_instances ++ " instances, found " ++
          toString instance_count] else []),
      counts := kinsert st.counts "instance" instance_count }
    let allIn := instances.all (fun i => subnet_ids.contains i.subnetId)
    let st := if allIn = false then
        { st with
          pass := false,
          errors := st.errors ++ ["Instance wiring error: instance in unexpected subnet"] }
      else st
    { st with wiring := kinsert st.wiring "instances_in_subnets" true }

/-- `_check_vpc_3subnets_3ec2` (checks.py lines 148-240). -/
def check_vpc_3subnets_3ec2 (ec2 : Ec2Client) (outputs : TfOutputs)
    (task_id : String) (expected : Checks) : CkOut :=
  let vpc_id? := getOutStr outputs "vpc_id"
  let subnet_ids := getOutList outputs "subnet_ids"
  let instance_ids := getOutList outputs "instance_ids"
  if truthyStr vpc_id? = false ∨ vpc_id? = some "null" then
    { pass := false, errors := ["VPC ID not found in outputs"],
      counts := [], wiring := [], details := [] }
  else
    let vpc_id := vpc_id?.getD ""
    match ec2.describe_vpcs [vpc_id] with
    | Except.error e =>
      { pass := false, errors := ["Failed to describe VPC: " ++ e],
        counts := [], wiring := [], details := [] }
    | Except.ok vpcs =>
      let vpc_count : Int := vpcs.length
      let expected_vpc := expected.vpc_count.getD 1
      let mm := vpc_count ≠ expected_vpc
      let st : CkOut := {
        pass := if mm then false else true,
        errors := if mm then
          ["Expected " ++ toString expected_vpc ++ " VPC, found " ++
            toString vpc_count] else [],
        counts := kinsert [] "vpc" vpc_count,
        wiring := [],
        details := [("vpc_id", DetailVal.str vpc_id?),
                    ("subnet_ids", DetailVal.strList subnet_ids),
                    ("instance_ids", DetailVal.strList instance_ids)] }
      vpc3_instances_section ec2 task_id vpc_id expected subnet_ids
        (vpc3_subnets_section ec2 task_id vpc_id expected st)

/-- `_check_security_group` (checks.py lines 354-423). -/
def check_security_group (ec2 : Ec2Client) (outputs : TfOutputs)
    (task_id : String) (expected : Checks) : CkOut :=
  let vpc_id? := getOutStr outputs "vpc_id"
  let sg_id? := getOutStr outputs "security_group_id"
  if truthyStr vpc_id? = false ∨ truthyStr sg_id? = false then
    { pass := false, errors := ["VPC ID or Security Group ID not found in outputs"],
      counts := [], wiring := [], details := [] }
  else
    let vpc_id := vpc_id?.getD ""
    let sg_id := sg_id?.getD ""
    match ec2.describe_vpcs [vpc_id] with
    | Except.error e =>
      { pass := false, errors := ["Failed to describe VPC: " ++ e],
        counts := [], wiring := [], details := [] }
    | Except.ok vpcs =>
      let vpc_count : Int := vpcs.length
      let expected_vpc := expected.vpc_count.getD 1
      let mm := vpc_count ≠ expected_vpc
      let st : CkOut := {
        pass := if mm then false else true,
        errors := if mm then
          ["Expected " ++ toString expected_vpc ++ " VPC, found " ++
            toString vpc_count] else [],
        counts := kinsert [] "vpc" vpc_count,
        wiring := [],
        details := [("vpc_id", DetailVal.str vpc_id?),
                    ("security_group_id", DetailVal.str sg_id?)] }
      match ec2.describe_security_groups [sg_id] task_id with
      | Except.error e =>
        { st with
          pass := false,
          errors := st.errors ++ ["Failed to describe security group: " ++ e] }
      | Except.ok sgs =>
        let sg_count : Int := sgs.length
        let expected_sg := expected.security_group_count.getD 1
        let mm2 := sg_count ≠ expected_sg
        let st := { st with
          pass := if mm2 then false else st.pass,
          errors := st.errors ++ (if mm2 then
            ["Expected " ++ toString expected_sg ++ " security group, found " ++
              toString sg_count] else []),
          counts := kinsert st.counts "security_group" sg_count }
        match sgs with
        | [] => st
        | sg :: _ =>
          let st := if sg.vpcId ≠ vpc_id then
              { st with
                pass := false,
                errors := st.errors ++ ["Security group not in expected VPC"] }
            else st
          let st := { st with wiring := kinsert st.wiring "security_group_in_vpc" true }
          let ingress_count : Int := sg.ipPermissions.length
          let expected_ingress := expected.ingress_rule_count.getD 0
          let mmi := ingress_count ≠ expected_ingress
          let st := { st with
            pass := if mmi then false else st.pass,
            errors := st.errors ++ (if mmi then
              ["Expected " ++ toString expected_ingress ++ " ingress rules, found " ++
                toString ingress_count] else []),
            counts := kinsert st.counts "ingress_rule" ingress_count }
          let egress_count : Int := sg.ipPermissionsEgress.length
          let expected_egress := expected.egress_rule_count.getD 0
          let mmo := egress_count ≠ expected_egress
          { st with
            pass := if mmo then false else st.pass,
            errors := st.errors ++ (if mmo then
              ["Expected " ++ toString expected_egress ++ " egress rules, found " ++
                toString egress_count] else []),
            counts := kinsert st.counts "egress_rule" egress_count }

/-- The versioning block of `_check_s3_tasks` (checks.py lines 270-281); a
`ClientError` there reaches `log_warn` and raises NameError. -/
def s3_versioning_section (s3 : S3Client) (bucket_id : String)
    (expected : Checks) (st : CkOut) : Except String CkOut :=
  if truthyBool expected.versioning_enabled then
    match s3.get_bucket_versioning bucket_id with
    | Except.error _ => Except.error nameErrorLogWarn
    | Except.ok status? =>
      let versioning_status := status?.getD ""
      let st := if versioning_status ≠ "Enabled" then
          { st with
            pass := false,
            errors := st.errors ++ ["Versioning not enabled: " ++ versioning_status] }
        else st
      Except.ok { st with
        details := kinsert st.details "versioning_status"
          (DetailVal.str (some versioning_status)) }
  else Except.ok st

/-- The lifecycle block of `_check_s3_tasks` (checks.py lines 283-300); a
`ClientError` not mentioning NoSuchLifecycleConfiguration reaches
`log_warn` and raises NameError. -/
def s3_lifecycle_section (s3 : S3Client) (bucket_id : String)
    (expected : Checks) (st : CkOut) : Except String CkOut :=
  if truthyInt expected.lifecycle_rule_count then
    match s3.get_bucket_lifecycle bucket_id with
    | Except.ok rules =>
      let rule_count : Int := rules.length
      let expected_rules := expected.lifecycle_rule_count.getD 1
      let mm := rule_count ≠ expected_rules
      Except.ok { st with
        pass := if mm then false else st.pass,
        errors := st.errors ++ (if mm then
          ["Expected " ++ toString expected_rules ++ " lifecycle rules, found " ++
            toString rule_count] else []),
        counts := kinsert st.counts "lifecycle_rule" rule_count,
        wiring := kinsert st.wiring "lifecycle_rule_attached" true }
    | Except.error e =>
      if hasSub e "NoSuchLifecycleConfiguration" = false then
        Except.error nameErrorLogWarn
      else if truthyInt expected.lifecycle_rule_count then
        Except.ok { st with
          pass := false,
          errors := st.errors ++ ["Lifecycle configuration not found"] }
      else Except.ok st
  else Except.ok st

/-- The public-access-block block of `_check_s3_tasks` (checks.py lines
302-315). -/
def s3_pab_section (s3 : S3Client) (bucket_id : String)
    (expected : Checks) (st : CkOut) : Except String CkOut :=
  if truthyInt expected.public_access_block_count then
    match s3.get_public_access_block bucket_id with
    | Except.ok cfg =>
      Except.ok { st with
        counts := kinsert st.counts "public_access_block" 1,
        details := kinsert st.details "public_access_block" (DetailVal.blob cfg),
        wiring := kinsert st.wiring "public_access_block_attached" true }
    | Except.error e =>
      if hasSub e "NoSuchPublicAccessBlockConfiguration" = false then
        Except.error nameErrorLogWarn
      else if truthyInt expected.public_access_block_count then
        Except.ok { st with
          pass := false,
          errors := st.errors ++ ["Public access block not found"] }
      else Except.ok st
  else Except.ok st

/-- The bucket-policy block of `_check_s3_tasks` (checks.py lines
317-329). -/
def s3_policy_section (s3 : S3Client) (bucket_id : String)
    (expected : Checks) (st : CkOut) : Except String CkOut :=
  if truthyInt expected.bucket_policy_count then
    match s3.get_bucket_policy bucket_id with
    | Except.ok pol =>
      Except.ok { st with
        counts := kinsert st.counts "bucket_policy" 1,
        details := kinsert st.details "bucket_policy" (DetailVal.str pol),
        wiring := kinsert st.wiring "bucket_policy_attached" true }
    | Except.error e =>
      if hasSub e "NoSuchBucketPolicy" = false then
        Except.error nameErrorLogWarn
      else if truthyInt expected.bucket_policy_count then
        Except.ok { st with
          pass := false,
          errors := st.errors ++ ["Bucket policy not found"] }
      else Except.ok st
  else Except.ok st

/-- The CORS block of `_check_s3_tasks` (checks.py lines 331-349). -/
def s3_cors_section (s3 : S3Client) (bucket_id : String)
    (expected : Checks) (st : CkOut) : Except String CkOut :=
  if truthyInt expected.cors_configuration_count then
    match s3.get_bucket_cors bucket_id with
    | Except.ok cors_rules =>
      if 0 < cors_rules.length then
        Except.ok { st with
          counts := kinsert st.counts "cors_configuration" 1,
          details := kinsert st.details "cors_rules" (DetailVal.strList cors_rules),
          wiring := kinsert st.wiring "cors_configuration_attached" true }
      else if truthyInt expected.cors_configuration_count then
        Except.ok { st with
          pass := false,
          errors := st.errors ++ ["CORS configuration not found or empty"] }
      else Except.ok st
    | Except.error e =>
      if hasSub e "NoSuchCORSConfiguration" = false then
        Except.error nameErrorLogWarn
      else if truthyInt expected.cors_configuration_count then
        Except.ok { st with
          pass := false,
          errors := st.errors ++ ["CORS configuration not found"] }
      else Except.ok st
  else Except.ok st

/-- The bucket name `_check_s3_tasks` works with:
`outputs.get('bucket_id', {}).get('value') or outputs.get('bucket_name', {}).get('value')`. -/
def s3BucketId (outputs : TfOutputs) : String :=
  (pyOr (getOutStr outputs "bucket_id") (getOutStr outputs "bucket_name")).getD ""

/-- `_check_s3_tasks` (checks.py lines 243-351); the `spec` parameter is
passed by `run_checks` but never read, as in the source. -/
def check_s3_tasks (s3 : S3Client) (outputs : TfOutputs) (task_id : String)
    (expected : Checks) (spec : Spec) : Except String CkOut :=
  if truthyStr (pyOr (getOutStr outputs "bucket_id")
      (getOutStr outputs "bucket_name")) = false then
    Except.ok { pass := false, errors := ["Bucket ID/name not found in outputs"],
                counts := [], wiring := [], details := [] }
  else
    match s3.head_bucket (s3BucketId outputs) with
    | Except.error e =>
      Except.ok { pass := false,
                  errors := ["Bucket " ++ s3BucketId outputs ++ " does not exist: " ++ e],
                  counts := [], wiring := [], details := [] }
    | Except.ok _ =>
      do
        let st ← s3_versioning_section s3 (s3BucketId outputs) expected
          { pass := true, errors := [],
            counts := kinsert [] "bucket" 1, wiring := [],
            details := [("bucket_id", DetailVal.str (pyOr (getOutStr outputs "bucket_id")
                          (getOutStr outputs "bucket_name"))),
                        ("bucket_arn", DetailVal.str (getOutStr outputs "bucket_arn"))] }
        let st ← s3_lifecycle_section s3 (s3BucketId outputs) expected st
        let st ← s3_pab_section s3 (s3BucketId outputs) expected st
        let st ← s3_policy_section s3 (s3BucketId outputs) expected st
        s3_cors_section s3 (s3BucketId outputs) expected st

/-- `_check_iam_role_policy` (checks.py lines 426-492); the `ClientError`
handlers of the policy and attachment blocks reach `log_warn` and raise
NameError. -/
def check_iam_role_policy (iam : IamClient) (outputs : TfOutputs)
    (task_id : String) (expected : Checks) : Except String CkOut :=
  let role_arn? := getOutStr outputs "role_arn"
  let policy_arn? := getOutStr outputs "policy_arn"
  if truthyStr role_arn? = false then
    Except.ok { pass := false, errors := ["Role ARN not found in outputs"],
                counts := [], wiring := [], details := [] }
  else
    let role_arn := role_arn?.getD ""
    let role_name := if hasSub role_arn "/" then lastSegment role_arn else role_arn
    match iam.get_role role_name with
    | Except.error e =>
      Except.ok { pass := false, errors := ["Failed to get role: " ++ e],
                  counts := [], wiring := [], details := [] }
    | Except.ok role =>
      let st : CkOut := { pass := true, errors := [],
                          counts := kinsert [] "role" 1, wiring := [],
                          details := kinsert [("role_arn", DetailVal.str role_arn?),
                                              ("policy_arn", DetailVal.str policy_arn?)]
                            "role" (DetailVal.blob role.assumeRolePolicyDocument) }
      let st := if hasSub (pyLower role.assumeRolePolicyDocument) "ec2.amazonaws.com" then
          { st with wiring := kinsert st.wiring "trust_policy_allows_ec2" true }
        else
          { st with
              pass := false,
              errors := st.errors ++ ["Trust policy does not allow EC2 service"] }
      do
        let st ←
          if truthyStr policy_arn? then
            match iam.get_policy (policy_arn?.getD "") with
            | Except.ok _ => Except.ok { st with counts := kinsert st.counts "policy" 1 }
            | Except.error _ => Except.error nameErrorLogWarn
          else Except.ok st
        match iam.list_attached_role_policies role_name with
        | Except.ok attached =>
          let attachment_count : Int := attached.length
          let expected_attachments := expected.role_policy_attachment_count.getD 0
          let mm := 0 < expected_attachments ∧ attachment_count < expected_attachments
          let st := { st with
                        pass := if mm then false else st.pass,
                        errors := st.errors ++ (if mm then
                          ["Expected " ++ toString expected_attachments ++
                            " policy attachments, found " ++ toString attachment_count] else []),
                        counts := kinsert st.counts "role_policy_attachment" attachment_count }
          let st := if 0 < attachment_count then
              { st with wiring := kinsert st.wiring "policy_attached_to_role" true }
            else st
          Except.ok st
        | Except.error _ => Except.error nameErrorLogWarn

/-- `_check_vpc_internet_gateway` (checks.py lines 495-609). A query failure
after the VPC block is non-fatal: the error is recorded and evaluation
continues. -/
def check_vpc_internet_gateway (ec2 : Ec2Client) (outputs : TfOutputs)
    (task_id : String) (expected : Checks) : CkOut :=
  let vpc_id? := getOutStr outputs "vpc_id"
  let igw_id? := getOutStr outputs "internet_gateway_id"
  let rt_id? := getOutStr outputs "route_table_id"
  let subnet_id? := getOutStr outputs "subnet_id"
  if truthyStr vpc_id? = false then
    { pass := false, errors := ["VPC ID not found in outputs"],
      counts := [], wiring := [], details := [] }
  else
    let vpc_id := vpc_id?.getD ""
    match ec2.describe_vpcs [vpc_id] with
    | Except.error e =>
      { pass := false, errors := ["Failed to describe VPC: " ++ e],
        counts := [], wiring := [], details := [] }
    | Except.ok vpcs =>
      let vpc_count : Int := vpcs.length
      let expected_vpc := expected.vpc_count.getD 1
      let mm := vpc_count ≠ expected_vpc
      let st : CkOut := {
        pass := if mm then false else true,
        errors := if mm then
          ["Expected " ++ toString expected_vpc ++ " VPC, found " ++
            toString vpc_count] else [],
        counts := kinsert [] "vpc" vpc_count,
        wiring := [],
        details := [("vpc_id", DetailVal.str vpc_id?),
                    ("internet_gateway_id", DetailVal.str igw_id?),
                    ("route_table_id", DetailVal.str rt_id?),
                    ("subnet_id", DetailVal.str subnet_id?)] }
      let st :=
        if truthyStr igw_id? then
          match ec2.describe_internet_gateways [igw_id?.getD ""] with
          | Except.error e =>
            { st with
                pass := false,
                errors := st.errors ++ ["Failed to describe Internet Gateway: " ++ e] }
          | Except.ok igws =>
            let igw_count : Int := igws.length
            let expected_igw := expected.internet_gateway_count.getD 1
            let mm := igw_count ≠ expected_igw
            let st := { st with
                          pass := if mm then false else st.pass,
                          errors := st.errors ++ (if mm then
                            ["Expected " ++ toString expected_igw ++
                              " Internet Gateway, found " ++ toString igw_count] else []),
                          counts := kinsert st.counts "internet_gateway" igw_count }
            match igws with
            | [] => st
            | igw :: _ =>
              if igw.attachments.any (fun att => att == some vpc_id) then
                { st with
                    wiring := kinsert st.wiring "internet_gateway_attached_to_vpc" true }
              else
                { st with
                    pass := false,
                    errors := st.errors ++ ["Internet Gateway not attached to VPC"] }
        else st
      let st :=
        if truthyStr rt_id? then
          match ec2.describe_route_tables_by_ids [rt_id?.getD ""] with
          | Except.error e =>
            { st with
                pass := false,
                errors := st.errors ++ ["Failed to describe Route Table: " ++ e] }
          | Except.ok rts =>
            let rt_count : Int := rts.length
            let expected_rt := expected.route_table_count.getD 1
            let mm := rt_count ≠ expected_rt
            let st := { st with
                          pass := if mm then false else st.pass,
                          errors := st.errors ++ (if mm then
                            ["Expected " ++ toString expected_rt ++
                              " Route Table, found " ++ toString rt_count] else []),
                          counts := kinsert st.counts "route_table" rt_count }
            match rts with
            | [] => st
            | rt :: _ =>
              let default_route := rt.routes.find?
                (fun r => r.destinationCidrBlock == some "0.0.0.0/0")
              let st :=
                match default_route with
                | some r =>
                  if r.gatewayId == igw_id? then
                    { st with
                        wiring := kinsert st.wiring
                          "route_table_has_default_route_to_igw" true }
                  else
                    { st with
                        pass := false,
                        errors := st.errors ++
                          ["Route Table missing default route to Internet Gateway"] }
                | none =>
                  { st with
                      pass := false,
                      errors := st.errors ++
                        ["Route Table missing default route to Internet Gateway"] }
              if rt.associations.any (fun a => a == subnet_id?) then
                { st with
                    wiring := kinsert st.wiring "subnet_associated_with_route_table" true }
              else
                { st with
                    pass := false,
                    errors := st.errors ++ ["Subnet not associated with Route Table"] }
        else st
      if truthyStr subnet_id? then
        match ec2.describe_subnets_by_ids_tag [subnet_id?.getD ""] task_id with
        | Except.error e =>
          { st with
              pass := false,
              errors := st.errors ++ ["Failed to describe Subnet: " ++ e] }
        | Except.ok subnets =>
          let subnet_count : Int := subnets.length
          let expected_subnet := expected.subnet_count.getD 1
          let mm := subnet_count ≠ expected_subnet
          { st with
              pass := if mm then false else st.pass,
              errors := st.errors ++ (if mm then
                ["Expected " ++ toString expected_subnet ++ " subnet, found " ++
                  toString subnet_count] else []),
              counts := kinsert st.counts "subnet" subnet_count }
      else st

/-- The per-route-table loop of `_check_vpc_nat_gateway` (checks.py lines
676-683): a default route with a `GatewayId` key sets the public wiring
flag, else one with a `NatGatewayId` key sets the private flag. -/
def natRtWiring (rts : List RouteTableR) (w : List (String × Bool)) :
    List (String × Bool) :=
  rts.foldl (fun w rt =>
    match rt.routes.find? (fun r => r.destinationCidrBlock == some "0.0.0.0/0") with
    | some r =>
      if r.gatewayId.isSome then kinsert w "public_route_to_igw" true
      else if r.natGatewayId.isSome then kinsert w "private_route_to_nat" true
      else w
    | none => w) w

/-- `_check_vpc_nat_gateway` (checks.py lines 613-692). The VPC block has no
count assertion; the route-table block compares with `<` against the sum of
the two expected route-table counts. -/
def check_vpc_nat_gateway (ec2 : Ec2Client) (outputs : TfOutputs)
    (task_id : String) (expected : Checks) : CkOut :=
  let vpc_id? := getOutStr outputs "vpc_id"
  let nat_id? := getOutStr outputs "nat_gateway_id"
  let public_subnet_id? := getOutStr outputs "public_subnet_id"
  if truthyStr vpc_id? = false then
    { pass := false, errors := ["VPC ID not found in outputs"],
      counts := [], wiring := [], details := [] }
  else
    let vpc_id := vpc_id?.getD ""
    match ec2.describe_vpcs [vpc_id] with
    | Except.error e =>
      { pass := false, errors := ["Failed to describe VPC: " ++ e],
        counts := [], wiring := [], details := [] }
    | Except.ok vpcs =>
      let st : CkOut := {
        pass := true, errors := [],
        counts := kinsert [] "vpc" (vpcs.length : Int),
        wiring := [],
        details := [("vpc_id", DetailVal.str vpc_id?),
                    ("nat_gateway_id", DetailVal.str nat_id?)] }
      let st :=
        if truthyStr nat_id? then
          match ec2.describe_nat_gateways [nat_id?.getD ""] with
          | Except.error e =>
            { st with
                pass := false,
                errors := st.errors ++ ["Failed to describe NAT Gateway: " ++ e] }
          | Except.ok nats =>
            let nat_count : Int := nats.length
            let expected_nat := expected.nat_gateway_count.getD 1
            let mm := nat_count ≠ expected_nat
            let st := { st with
                          pass := if mm then false else st.pass,
                          errors := st.errors ++ (if mm then
                            ["Expected " ++ toString expected_nat ++
                              " NAT Gateway, found " ++ toString nat_count] else []),
                          counts := kinsert st.counts "nat_gateway" nat_count }
            match nats with
            | [] => st
            | nat :: _ =>
              if nat.subnetId == public_subnet_id? then
                { st with
                    wiring := kinsert st.wiring "nat_gateway_in_public_subnet" true }
              else
                { st with
                    pass := false,
                    errors := st.errors ++ ["NAT Gateway not in public subnet"] }
        else st
      match ec2.describe_route_tables_by_vpc vpc_id with
      | Except.error e =>
        { st with
            pass := false,
            errors := st.errors ++ ["Failed to describe Route Tables: " ++ e] }
      | Except.ok rts =>
        let rt_count : Int := rts.length
        let expected_rt := expected.public_route_table_count.getD 0 +
          expected.private_route_table_count.getD 0
        let mm := rt_count < expected_rt
        let st := { st with
                      pass := if mm then false else st.pass,
                      errors := st.errors ++ (if mm then
                        ["Expected at least " ++ toString expected_rt ++
                          " route tables, found " ++ toString rt_count] else []),
                      counts := kinsert st.counts "route_table" rt_count }
        { st with wiring := natRtWiring rts st.wiring }

/-- `_check_ec2_instance_profile` (checks.py lines 695-756). -/
def check_ec2_instance_profile (ec2 : Ec2Client) (iam : IamClient)
    (outputs : TfOutputs) (task_id : String) (expected : Checks) : CkOut :=
  let instance_id? := getOutStr outputs "instance_id"
  let role_arn? := getOutStr outputs "iam_role_arn"
  let profile_arn? := getOutStr outputs "instance_profile_arn"
  if truthyStr instance_id? = false then
    { pass := false, errors := ["Instance ID not found in outputs"],
      counts := [], wiring := [], details := [] }
  else
    let st : CkOut := {
      pass := true, errors := [], counts := [], wiring := [],
      details := [("instance_id", DetailVal.str instance_id?),
                  ("role_arn", DetailVal.str role_arn?),
                  ("instance_profile_arn", DetailVal.str profile_arn?)] }
    let st :=
      match ec2.describe_instances_by_ids [instance_id?.getD ""] with
      | Except.error e =>
        { st with
            pass := false,
            errors := st.errors ++ ["Failed to describe instance: " ++ e] }
      | Except.ok reservations =>
        let instances := reservations.foldl (fun acc r => acc ++ r.instances) []
        let instance_count : Int := instances.length
        let expected_instance := expected.instance_count.getD 1
        let mm := instance_count ≠ expected_instance
        let st := { st with
                      pass := if mm then false else st.pass,
                      errors := st.errors ++ (if mm then
                        ["Expected " ++ toString expected_instance ++
                          " instance, found " ++ toString instance_count] else []),
                      counts := kinsert st.counts "instance" instance_count }
        match instances with
        | [] => st
        | inst :: _ =>
          if inst.iamInstanceProfile.isSome then
            { st with
                wiring := kinsert st.wiring "instance_profile_attached_to_instance" true }
          else
            { st with
                pass := false,
                errors := st.errors ++ ["Instance profile not attached to instance"] }
    let st :=
      if truthyStr role_arn? then
        let role_arn := role_arn?.getD ""
        let role_name := if hasSub role_arn "/" then lastSegment role_arn else role_arn
        match iam.get_role role_name with
        | Except.error e =>
          { st with
              pass := false,
              errors := st.errors ++ ["Failed to get IAM role: " ++ e] }
        | Except.ok _ => { st with counts := kinsert st.counts "iam_role" 1 }
      else st
    if truthyStr profile_arn? then
      let profile_arn := profile_arn?.getD ""
      let profile_name := if hasSub profile_arn "/" then lastSegment profile_arn
        else profile_arn
      match iam.get_instance_profile profile_name with
      | Except.error e =>
        { st with
            pass := false,
            errors := st.errors ++ ["Failed to get instance profile: " ++ e] }
      | Except.ok profile =>
        let st := { st with counts := kinsert st.counts "instance_profile" 1 }
        if profile.roles.isEmpty then st
        else
          { st with
              wiring := kinsert st.wiring "role_attached_to_instance_profile" true }
    else st

/-- The set of subnet ids associated with any of the route tables
(`associated_subnets` of `_check_vpc_multiple_route_tables`, checks.py lines
818-823); deduplicated as a Python set is. -/
def associatedSubnets (rts : List RouteTableR) : List String :=
  (rts.foldl (fun acc rt =>
    acc ++ rt.associations.filterMap (fun a =>
      match a with
      | some s => if s ≠ "" then some s else none
      | none => none)) []).eraseDups

/-- `_check_vpc_multiple_route_tables` (checks.py lines 759-833). -/
def check_vpc_multiple_route_tables (ec2 : Ec2Client) (outputs : TfOutputs)
    (task_id : String) (expected : Checks) : CkOut :=
  let vpc_id? := getOutStr outputs "vpc_id"
  let subnet_ids := getOutList outputs "subnet_ids"
  let route_table_ids := getOutList outputs "route_table_ids"
  if truthyStr vpc_id? = false then
    { pass := false, errors := ["VPC ID not found in outputs"],
      counts := [], wiring := [], details := [] }
  else
    let vpc_id := vpc_id?.getD ""
    match ec2.describe_vpcs [vpc_id] with
    | Except.error e =>
      { pass := false, errors := ["Failed to describe VPC: " ++ e],
        counts := [], wiring := [], details := [] }
    | Except.ok vpcs =>
      let st : CkOut := {
        pass := true, errors := [],
        counts := kinsert [] "vpc" (vpcs.length : Int),
        wiring := [],
        details := [("vpc_id", DetailVal.str vpc_id?),
                    ("subnet_ids", DetailVal.strList subnet_ids),
                    ("route_table_ids", DetailVal.strList route_table_ids)] }
      let st :=
        match ec2.describe_subnets_by_vpc_tag vpc_id task_id with
        | Except.error e =>
          { st with
              pass := false,
              errors := st.errors ++ ["Failed to describe subnets: " ++ e] }
        | Except.ok subnets =>
          let subnet_count : Int := subnets.length
          let expected_subnets := expected.subnet_count.getD 3
          let mm := subnet_count ≠ expected_subnets
          { st with
              pass := if mm then false else st.pass,
              errors := st.errors ++ (if mm then
                ["Expected " ++ toString expected_subnets ++ " subnets, found " ++
                  toString subnet_count] else []),
              counts := kinsert st.counts "subnet" subnet_count }
      match ec2.describe_route_tables_by_vpc vpc_id with
      | Except.error e =>
        { st with
            pass := false,
            errors := st.errors ++ ["Failed to describe Route Tables: " ++ e] }
      | Except.ok rts =>
        let rt_count : Int := rts.length
        let expected_rt := expected.route_table_count.getD 2
        let mm := rt_count ≠ expected_rt
        let st := { st with
                      pass := if mm then false else st.pass,
                      errors := st.errors ++ (if mm then
                        ["Expected " ++ toString expected_rt ++
                          " route tables, found " ++ toString rt_count] else []),
                      counts := kinsert st.counts "route_table" rt_count }
        if (associatedSubnets rts).length = subnet_ids.length then
          { st with
              wiring := kinsert st.wiring "all_subnets_associated_with_route_tables" true }
        else
          { st with
              pass := false,
              errors := st.errors ++ ["Not all subnets are associated with route tables"] }

/-- `_check_generic` (checks.py lines 836-851): an empty outputs document
returns early; otherwise the call to `log_warn` at line 849 raises
NameError, since checks.py never imports that name. -/
def check_generic (outputs : TfOutputs) (task_id : String)
    (expected : Checks) : Except String CkOut :=
  if outputs.isEmpty then
    Except.ok { pass := false, errors := ["No outputs found"],
                counts := [], wiring := [], details := [] }
  else Except.error nameErrorLogWarn

/-- The dictionary `run_checks` returns (checks.py lines 124-131); the early
returns at lines 30-48 carry only `task_id`, `pass` and `errors`, modelled
here with the remaining maps empty. -/
structure CheckDoc where
  task_id : String
  pass : Bool
  details : Details
  counts : List (String × Int)
  wiring : List (String × Bool)
  errors : List String

/-- Packs a checker five-tuple into the result document. -/
def mkDoc (task_id : String) (c : CkOut) : CheckDoc :=
  { task_id := task_id, pass := c.pass, details := c.details,
    counts := c.counts, wiring := c.wiring, errors := c.errors }

/-- `run_checks` (checks.py lines 13-145): spec and outputs documents are
passed as `Option` (`none` models a missing file), the boto3 clients as the
query records. The final dispatch branch (line 120) calls `log_warn`, a name
checks.py never imports (line 10), so an unrecognized task id raises
NameError before `_check_generic` runs. -/
def runChecks (spec? : Option Spec) (outputs? : Option TfOutputs)
    (ec2 : Ec2Client) (s3 : S3Client) (iam : IamClient) (task_id : String) :
    Except String CheckDoc :=
  match spec? with
  | none =>
    Except.ok { task_id := task_id, pass := false,
                details := [], counts := [], wiring := [],
                errors := ["Spec file not found: tasks/" ++ task_id ++ "/spec.yaml"] }
  | some spec =>
    match outputs? with
    | none =>
      Except.ok { task_id := task_id, pass := false,
                  details := [], counts := [], wiring := [],
                  errors := ["outputs.json not found"] }
    | some outputs =>
      let expected := spec.checks
      if task_id == "task_vpc_3subnets_3ec2" then
        Except.ok (mkDoc task_id (check_vpc_3subnets_3ec2 ec2 outputs task_id expected))
      else if pyStartsWith task_id "task_s3" then
        do
          let c ← check_s3_tasks s3 outputs task_id expected spec
          pure (mkDoc task_id c)
      else if task_id == "task_security_group_complex" then
        Except.ok (mkDoc task_id (check_security_group ec2 outputs task_id expected))
      else if task_id == "task_iam_role_policy" then
        do
          let c ← check_iam_role_policy iam outputs task_id expected
          pure (mkDoc task_id c)
      else if task_id == "task_vpc_internet_gateway" then
        Except.ok (mkDoc task_id (check_vpc_internet_gateway ec2 outputs task_id expected))
      else if task_id == "task_vpc_nat_gateway" then
        Except.ok (mkDoc task_id (check_vpc_nat_gateway ec2 outputs task_id expected))
      else if task_id == "task_ec2_instance_profile" then
        Except.ok (mkDoc task_id (check_ec2_instance_profile ec2 iam outputs task_id expected))
      else if task_id == "task_vpc_multiple_route_tables" then
        Except.ok (mkDoc task_id (check_vpc_multiple_route_tables ec2 outputs task_id expected))
      else
        Except.error nameErrorLogWarn

/-- An EC2 client whose every query fails; used to show control-plane state
is irrelevant on a given path. -/
def noopEc2 : Ec2Client :=
  { describe_vpcs := fun _ => Except.error "unavailable",
    describe_subnets_by_vpc_tag := fun _ _ => Except.error "unavailable",
    describe_instances_by_tag_vpc := fun _ _ => Except.error "unavailable",
    describe_security_groups := fun _ _ => Except.error "unavailable",
    describe_internet_gateways := fun _ => Except.error "unavailable",
    describe_route_tables_by_ids := fun _ => Except.error "unavailable",
    describe_route_tables_by_vpc := fun _ => Except.error "unavailable",
    describe_nat_gateways := fun _ => Except.error "unavailable",
    describe_instances_by_ids := fun _ => Except.error "unavailable",
    describe_subnets_by_ids_tag := fun _ _ => Except.error "unavailable" }

/-- An S3 client whose every query fails. -/
def noopS3 : S3Client :=
  { head_bucket := fun _ => Except.error "unavailable",
    get_bucket_versioning := fun _ => Except.error "unavailable",
    get_bucket_lifecycle := fun _ => Except.error "unavailable",
    get_public_access_block := fun _ => Except.error "unavailable",
    get_bucket_policy := fun _ => Except.error "unavailable",
    get_bucket_cors := fun _ => Except.error "unavailable" }

/-- An IAM client whose every query fails. -/
def noopIam : IamClient :=
  { get_role := fun _ => Except.error "unavailable",
    get_policy := fun _ => Except.error "unavailable",
    list_attached_role_policies := fun _ => Except.error "unavailable",
    get_instance_profile := fun _ => Except.error "unavailable" }

/-! ### Theorems about the pipeline -/

/-- Bridge lemma: the Boolean `idempotencyFails` as a disjunction of the
three conditions tested by the idempotency region of `TaskRunner.run`. -/
theorem idempotencyFails_iff (r : StageRes) :
    idempotencyFails r = true ↔
      (r.success = false ∧ hasSub (pyLower r.output) "timed out" = true) ∨
      (hasSub r.output "No changes" = false ∧
        hasSub r.output "0 to add, 0 to change, 0 to destroy" = false) ∨
      (hasSub r.output "No changes" = false ∧
        hasSub r.output "Apply complete!" = false) := by
  simp only [idempotencyFails, Bool.or_eq_true, Bool.and_eq_true, Bool.not_eq_true',
    decide_eq_true_eq]
  tauto

/-- Bridge lemma: the negation of `idempotencyFails_iff`. -/
theorem idempotencyFails_eq_false (r : StageRes) :
    idempotencyFails r = false ↔
      ¬((r.success = false ∧ hasSub (pyLower r.output) "timed out" = true) ∨
        (hasSub r.output "No changes" = false ∧
          hasSub r.output "0 to add, 0 to change, 0 to destroy" = false) ∨
        (hasSub r.output "No changes" = false ∧
          hasSub r.output "Apply complete!" = false)) := by
  rw [← idempotencyFails_iff]
  exact Bool.eq_false_iff

/-- C6 counterexample: with LocalStack unavailable the run fails with
category LOCALSTACK, which is not in the closed set claimed by the spec
(whose ninth element is PRECONDITION). -/
theorem c6_counterexample :
    (runPipeline envNoLocalstack).pass = false ∧
    (runPipeline envNoLocalstack).failure_category = some "LOCALSTACK" ∧
    "LOCALSTACK" ∉ ["SYNTAX", "INIT", "VALIDATE", "PLAN", "APPLY",
                    "CHECKS", "IDEMPOTENCY", "DESTROY", "PRECONDITION"] := by
  decide

/-- C6 (amended): for every finished run, if the pass flag is false then
exactly one failure category is set and it belongs to the code's closed set
`FAILURE_CATEGORIES = [SYNTAX, INIT, VALIDATE, PLAN, APPLY, CHECKS,
IDEMPOTENCY, DESTROY, LOCALSTACK]`; if the pass flag is true then no
failure category is set. -/
theorem c6_failure_category_closed_set (env : PipelineEnv) :
    ((runPipeline env).pass = true → (runPipeline env).failure_category = none) ∧
    ((runPipeline env).pass = false →
      ∃ c, (runPipeline env).failure_category = some c ∧ c ∈ FAILURE_CATEGORIES) := by
  delta runPipeline
  by_cases h1 : env.localstack_ok = false
  · rw [if_pos h1]
    exact ⟨fun h => Bool.noConfusion h, fun _ => ⟨_, rfl, by decide⟩⟩
  · rw [if_neg h1]
    by_cases h2 : env.fmt.success = false
    · rw [if_pos h2]
      exact ⟨fun h => Bool.noConfusion h, fun _ => ⟨_, rfl, by decide⟩⟩
    · rw [if_neg h2]
      by_cases h3 : env.fmt_check.success = false
      · rw [if_pos h3]
        exact ⟨fun h => Bool.noConfusion h, fun _ => ⟨_, rfl, by decide⟩⟩
      · rw [if_neg h3]
        by_cases h4 : env.init.success = false
        · rw [if_pos h4]
          exact ⟨fun h => Bool.noConfusion h, fun _ => ⟨_, rfl, by decide⟩⟩
        · rw [if_neg h4]
          by_cases h5 : env.validate.success = false
          · rw [if_pos h5]
            exact ⟨fun h => Bool.noConfusion h, fun _ => ⟨_, rfl, by decide⟩⟩
          · rw [if_neg h5]
            by_cases h6 : env.plan.success = false
            · rw [if_pos h6]
              exact ⟨fun h => Bool.noConfusion h, fun _ => ⟨_, rfl, by decide⟩⟩
            · rw [if_neg h6]
              by_cases h7 : env.apply.success = false
              · rw [if_pos h7]
                exact ⟨fun h => Bool.noConfusion h, fun _ => ⟨_, rfl, by decide⟩⟩
              · rw [if_neg h7]
                rcases hc : env.checks with e | b
                · simp only [hc]
                  exact ⟨fun h => Bool.noConfusion h, fun _ => ⟨_, rfl, by decide⟩⟩
                · simp only [hc]
                  by_cases h8 : b = false
                  · rw [if_pos h8]
                    exact ⟨fun h => Bool.noConfusion h, fun _ => ⟨_, rfl, by decide⟩⟩
                  · rw [if_neg h8]
                    by_cases h9 : env.plan2.success = false ∧ hasSub (pyLower env.plan2.output) "timed out" = true
                    · rw [if_pos h9]
                      exact ⟨fun h => Bool.noConfusion h, fun _ => ⟨_, rfl, by decide⟩⟩
                    · rw [if_neg h9]
                      by_cases h10 : hasSub env.plan2.output "No changes" = false ∧ hasSub env.plan2.output "0 to add, 0 to change, 0 to destroy" = false
                      · rw [if_pos h10]
                        exact ⟨fun h => Bool.noConfusion h, fun _ => ⟨_, rfl, by decide⟩⟩
                      · rw [if_neg h10]
                        by_cases h11 : hasSub env.plan2.output "No changes" = false ∧ hasSub env.plan2.output "Apply complete!" = false
                        · rw [if_pos h11]
                          exact ⟨fun h => Bool.noConfusion h, fun _ => ⟨_, rfl, by decide⟩⟩
                        · rw [if_neg h11]
                          by_cases h12 : env.destroy.success = false
                          · rw [if_pos h12]
                            exact ⟨fun h => Bool.noConfusion h, fun _ => ⟨_, rfl, by decide⟩⟩
                          · rw [if_neg h12]
                            exact ⟨fun _ => rfl, fun h => Bool.noConfusion h⟩

/-- C6 witness: the fully successful run has no failure category set. -/
theorem c6_witness : (runPipeline baseEnv).failure_category = none :=
  (c6_failure_category_closed_set baseEnv).1 (by decide)

/-- C4: for every run that reaches the post-apply verification, if
`run_checks` returns a failing result or raises, the run is assigned
failure category CHECKS, overall pass is false, and the destroy stage is
never executed. -/
theorem c4_checks_failure_skips_destroy (env : PipelineEnv)
    (hls : env.localstack_ok = true)
    (hf : env.fmt.success = true) (hfc : env.fmt_check.success = true)
    (hi : env.init.success = true) (hv : env.validate.success = true)
    (hp : env.plan.success = true) (ha : env.apply.success = true)
    (hc : env.checks = Except.ok false ∨ ∃ e, env.checks = Except.error e) :
    (runPipeline env).failure_category = some "CHECKS" ∧
    (runPipeline env).pass = false ∧
    "destroy" ∉ (runPipeline env).executed := by
  delta runPipeline
  rw [if_neg (by simp [hls]), if_neg (by simp [hf]), if_neg (by simp [hfc]),
    if_neg (by simp [hi]), if_neg (by simp [hv]), if_neg (by simp [hp]),
    if_neg (by simp [ha])]
  rcases hc with hc | ⟨e, hc⟩ <;> simp [hc]

/-- C4 witness: in a run whose checks return a failing result, the failure
category is CHECKS and destroy is not among the executed stages. -/
theorem c4_witness :
    (runPipeline envChecksFail).failure_category = some "CHECKS" ∧
    (runPipeline envChecksFail).pass = false ∧
    "destroy" ∉ (runPipeline envChecksFail).executed :=
  c4_checks_failure_skips_destroy envChecksFail rfl rfl rfl rfl rfl rfl rfl
    (Or.inl rfl)

/-- C1 counterexample: a second plan that fails with an output mentioning a
timeout is mapped to category IDEMPOTENCY even though its captured output
contains both canonical zero-change markers, refuting the claimed
"fails if and only if the output lacks the zero-change marker". -/
theorem c1_counterexample :
    (runPipeline envTimeoutMarker).failure_category = some "IDEMPOTENCY" ∧
    (runPipeline envTimeoutMarker).pass = false ∧
    hasSub envTimeoutMarker.plan2.output "No changes" = true ∧
    hasSub envTimeoutMarker.plan2.output "0 to add, 0 to change, 0 to destroy" = true := by
  decide

/-- C1 (amended): for every run that reaches the idempotency stage, the
stage fails with category IDEMPOTENCY exactly when `idempotencyFails` holds
of the second plan result: the plan command failed with an output
containing "timed out" (case-insensitively), or the output lacks both
"No changes" and "0 to add, 0 to change, 0 to destroy", or the output lacks
both "No changes" and "Apply complete!"; in that case overall pass is
false. -/
theorem c1_idempotency_condition (env : PipelineEnv)
    (hls : env.localstack_ok = true)
    (hf : env.fmt.success = true) (hfc : env.fmt_check.success = true)
    (hi : env.init.success = true) (hv : env.validate.success = true)
    (hp : env.plan.success = true) (ha : env.apply.success = true)
    (hc : env.checks = Except.ok true) :
    ((runPipeline env).failure_category = some "IDEMPOTENCY" ↔
      idempotencyFails env.plan2 = true) ∧
    (idempotencyFails env.plan2 = true → (runPipeline env).pass = false) := by
  delta runPipeline
  rw [if_neg (by simp [hls]), if_neg (by simp [hf]), if_neg (by simp [hfc]),
    if_neg (by simp [hi]), if_neg (by simp [hv]), if_neg (by simp [hp]),
    if_neg (by simp [ha])]
  simp only [hc]
  rw [if_neg (by decide : ¬(true = false))]
  by_cases h9 : env.plan2.success = false ∧
      hasSub (pyLower env.plan2.output) "timed out" = true
  · rw [if_pos h9]
    exact ⟨⟨fun _ => (idempotencyFails_iff _).2 (Or.inl h9), fun _ => rfl⟩,
      fun _ => rfl⟩
  · rw [if_neg h9]
    by_cases h10 : hasSub env.plan2.output "No changes" = false ∧
        hasSub env.plan2.output "0 to add, 0 to change, 0 to destroy" = false
    · rw [if_pos h10]
      exact ⟨⟨fun _ => (idempotencyFails_iff _).2 (Or.inr (Or.inl h10)),
        fun _ => rfl⟩, fun _ => rfl⟩
    · rw [if_neg h10]
      by_cases h11 : hasSub env.plan2.output "No changes" = false ∧
          hasSub env.plan2.output "Apply complete!" = false
      · rw [if_pos h11]
        exact ⟨⟨fun _ => (idempotencyFails_iff _).2 (Or.inr (Or.inr h11)),
          fun _ => rfl⟩, fun _ => rfl⟩
      · rw [if_neg h11]
        have hnf : idempotencyFails env.plan2 = true → False := fun hI => by
          rcases (idempotencyFails_iff _).1 hI with h | h | h
          · exact h9 h
          · exact h10 h
          · exact h11 h
        by_cases h12 : env.destroy.success = false
        · rw [if_pos h12]
          exact ⟨⟨fun h => by simp at h, fun hI => (hnf hI).elim⟩,
            fun hI => (hnf hI).elim⟩
        · rw [if_neg h12]
          exact ⟨⟨fun h => by simp at h, fun hI => (hnf hI).elim⟩,
            fun hI => (hnf hI).elim⟩

/-- C1 witness: for the fully successful run whose second plan reports
"No changes", the idempotency characterisation applies. -/
theorem c1_witness :
    ((runPipeline baseEnv).failure_category = some "IDEMPOTENCY" ↔
      idempotencyFails baseEnv.plan2 = true) ∧
    (idempotencyFails baseEnv.plan2 = true → (runPipeline baseEnv).pass = false) :=
  c1_idempotency_condition baseEnv rfl rfl rfl rfl rfl rfl rfl rfl

/-- C5 counterexample: when the output-capture step fails, the run is not
terminated: the checks stage is still executed and recorded (and here the
whole run even passes), refuting "stage k+1 outcome is recorded only if
stage k succeeded" for the pair (output capture, checks). -/
theorem c5_counterexample :
    envOutputFail.outputStep.success = false ∧
    "checks" ∈ (runPipeline envOutputFail).timingKeys ∧
    "checks" ∈ (runPipeline envOutputFail).executed ∧
    (runPipeline envOutputFail).pass = true := by
  decide

/-- C5 (amended): the stage order is fixed and each stage executes only if
every earlier stage succeeded, except for the output-capture step, whose
failure does not terminate the run: the checks stage executes whenever the
output step does, regardless of the output step result.  In particular the
pipeline never enters APPLY when VALIDATE was unsuccessful. -/
theorem c5_stage_ordering (env : PipelineEnv) :
    ("fmt" ∈ (runPipeline env).executed → env.localstack_ok = true) ∧
    ("fmt_check" ∈ (runPipeline env).executed → env.fmt.success = true) ∧
    ("init" ∈ (runPipeline env).executed → env.fmt_check.success = true) ∧
    ("validate" ∈ (runPipeline env).executed → env.init.success = true) ∧
    ("plan" ∈ (runPipeline env).executed → env.validate.success = true) ∧
    ("apply" ∈ (runPipeline env).executed → env.plan.success = true) ∧
    ("apply" ∈ (runPipeline env).executed → env.validate.success = true) ∧
    ("output" ∈ (runPipeline env).executed → env.apply.success = true) ∧
    ("checks" ∈ (runPipeline env).executed → "output" ∈ (runPipeline env).executed) ∧
    ("plan_2" ∈ (runPipeline env).executed → env.checks = Except.ok true) ∧
    ("destroy" ∈ (runPipeline env).executed → idempotencyFails env.plan2 = false) := by
  delta runPipeline
  by_cases h1 : env.localstack_ok = false
  · rw [if_pos h1]
    simp_all [idempotencyFails_eq_false]
  · rw [if_neg h1]
    by_cases h2 : env.fmt.success = false
    · rw [if_pos h2]
      simp_all [idempotencyFails_eq_false]
    · rw [if_neg h2]
      by_cases h3 : env.fmt_check.success = false
      · rw [if_pos h3]
        simp_all [idempotencyFails_eq_false]
      · rw [if_neg h3]
        by_cases h4 : env.init.success = false
        · rw [if_pos h4]
          simp_all [idempotencyFails_eq_false]
        · rw [if_neg h4]
          by_cases h5 : env.validate.success = false
          · rw [if_pos h5]
            simp_all [idempotencyFails_eq_false]
          · rw [if_neg h5]
            by_cases h6 : env.plan.success = false
            · rw [if_pos h6]
              simp_all [idempotencyFails_eq_false]
            · rw [if_neg h6]
              by_cases h7 : env.apply.success = false
              · rw [if_pos h7]
                simp_all [idempotencyFails_eq_false]
              · rw [if_neg h7]
                rcases hc : env.checks with e | b
                · simp only [hc]
                  simp_all [idempotencyFails_eq_false]
                · simp only [hc]
                  by_cases h8 : b = false
                  · rw [if_pos h8]
                    simp_all [idempotencyFails_eq_false]
                  · rw [if_neg h8]
                    by_cases h9 : env.plan2.success = false ∧ hasSub (pyLower env.plan2.output) "timed out" = true
                    · rw [if_pos h9]
                      simp_all [idempotencyFails_eq_false]
                    · rw [if_neg h9]
                      by_cases h10 : hasSub env.plan2.output "No changes" = false ∧ hasSub env.plan2.output "0 to add, 0 to change, 0 to destroy" = false
                      · rw [if_pos h10]
                        simp_all [idempotencyFails_eq_false]
                      · rw [if_neg h10]
                        by_cases h11 : hasSub env.plan2.output "No changes" = false ∧ hasSub env.plan2.output "Apply complete!" = false
                        · rw [if_pos h11]
                          simp_all [idempotencyFails_eq_false]
                        · rw [if_neg h11]
                          by_cases h12 : env.destroy.success = false
                          · rw [if_pos h12]
                            simp_all [idempotencyFails_eq_false]
                          · rw [if_neg h12]
                            simp_all [idempotencyFails_eq_false]

/-- C5 witness: the ordering theorem applied to the fully successful run. -/
theorem c5_witness : baseEnv.localstack_ok = true :=
  (c5_stage_ordering baseEnv).1 (by decide)

/-! ### Helper lemmas about the Method 1 scanner -/

theorem takeWhile_append_all {p : Char → Bool} :
    ∀ (w r : List Char), (∀ c ∈ w, p c = true) →
      (w ++ r).takeWhile p = w ++ r.takeWhile p
  | [], r, _ => by simp
  | c :: t, r, hw => by
    simp only [List.cons_append, List.takeWhile_cons, hw c (by simp)]
    simp [takeWhile_append_all t r (fun x hx => hw x (by simp [hx]))]

theorem dropWhile_append_all {p : Char → Bool} :
    ∀ (w r : List Char), (∀ c ∈ w, p c = true) →
      (w ++ r).dropWhile p = r.dropWhile p
  | [], r, _ => by simp
  | c :: t, r, hw => by
    simp only [List.cons_append, List.dropWhile_cons, hw c (by simp)]
    simp [dropWhile_append_all t r (fun x hx => hw x (by simp [hx]))]

theorem takeWhile_append_stop {p : Char → Bool} (w : List Char) {d : Char}
    (r : List Char) (hw : ∀ c ∈ w, p c = true) (hd : p d = false) :
    (w ++ d :: r).takeWhile p = w := by
  rw [takeWhile_append_all w (d :: r) hw, List.takeWhile_cons_of_neg (by simp [hd])]
  simp

theorem dropWhile_append_stop {p : Char → Bool} (w : List Char) {d : Char}
    (r : List Char) (hw : ∀ c ∈ w, p c = true) (hd : p d = false) :
    (w ++ d :: r).dropWhile p = d :: r := by
  rw [dropWhile_append_all w (d :: r) hw, List.dropWhile_cons_of_neg (by simp [hd])]

theorem dropWhile_idem {p : Char → Bool} (l : List Char) :
    (l.dropWhile p).dropWhile p = l.dropWhile p := by
  induction l with
  | nil => simp
  | cons c t ih =>
    by_cases h : p c = true
    · simp [List.dropWhile_cons, h, ih]
    · rw [List.dropWhile_cons_of_neg (by simp [h]),
        List.dropWhile_cons_of_neg (by simp [h])]

theorem startsWithTriple_cons_ne {c : Char} (t : List Char) (h : c ≠ '`') :
    startsWithTriple (c :: t) = false := by
  simp [startsWithTriple, List.isPrefixOf]
  intro hc
  exact absurd hc.symm h

theorem startsWithTriple_triple (y : List Char) :
    startsWithTriple ('`' :: '`' :: '`' :: y) = true := by
  simp [startsWithTriple, List.isPrefixOf]

theorem startsWithTriple_shape :
    ∀ {l : List Char}, startsWithTriple l = true → ∃ y, l = '`' :: '`' :: '`' :: y
  | [], h => by simp [startsWithTriple, List.isPrefixOf] at h
  | [_], h => by simp [startsWithTriple, List.isPrefixOf] at h
  | [_, _], h => by simp [startsWithTriple, List.isPrefixOf] at h
  | c :: d :: e :: y, h => by
    simp [startsWithTriple, List.isPrefixOf] at h
    obtain ⟨h1, h2, h3⟩ := h
    exact ⟨y, by rw [← h1, ← h2, ← h3]⟩

theorem splitAtTriple_prefix :
    ∀ (S y : List Char), '`' ∉ S →
      splitAtTriple (S ++ '`' :: '`' :: '`' :: y) = some (S, y)
  | [], y, _ => by
    rw [List.nil_append, splitAtTriple, if_pos (startsWithTriple_triple y)]
    simp
  | c :: S', y, hS => by
    have hc : c ≠ '`' := fun h => hS (by simp [h])
    have hS' : '`' ∉ S' := fun h => hS (by simp [h])
    rw [List.cons_append, splitAtTriple,
      if_neg (by simp [startsWithTriple_cons_ne _ hc]),
      splitAtTriple_prefix S' y hS']

theorem splitAtTriple_shape :
    ∀ (l pre post : List Char), splitAtTriple l = some (pre, post) →
      l = pre ++ '`' :: '`' :: '`' :: post
  | [], pre, post, h => by simp [splitAtTriple] at h
  | c :: t, pre, post, h => by
    rw [splitAtTriple] at h
    by_cases hs : startsWithTriple (c :: t) = true
    · rw [if_pos hs] at h
      obtain ⟨y, hy⟩ := startsWithTriple_shape hs
      injection hy with hc ht
      simp only [Option.some.injEq, Prod.mk.injEq] at h
      obtain ⟨hpre, hpost⟩ := h
      subst hc
      subst ht
      subst hpre
      subst hpost
      simp
    · rw [if_neg hs] at h
      match hsp : splitAtTriple t with
      | some (pre', post') =>
        rw [hsp] at h
        simp only [Option.some.injEq, Prod.mk.injEq] at h
        obtain ⟨hpre, hpost⟩ := h
        subst hpre
        subst hpost
        simp [splitAtTriple_shape t pre' post' hsp]
      | none => rw [hsp] at h; simp at h

theorem takeWhile_append_break {p : Char → Bool} :
    ∀ (b : List Char) {d : Char} (y : List Char), p d = false →
      (b ++ d :: y).takeWhile p = b.takeWhile p
  | [], d, y, hd => by
    have hnd : ¬ p d = true := by simp [hd]
    simp [List.takeWhile_cons_of_neg hnd]
  | c :: t, d, y, hd => by
    by_cases hc : p c = true
    · simp [List.takeWhile_cons, hc, takeWhile_append_break t y hd]
    · simp [List.takeWhile_cons, hc]

theorem dropWhile_append_break {p : Char → Bool} :
    ∀ (b : List Char) {d : Char} (y : List Char), p d = false →
      (b ++ d :: y).dropWhile p = b.dropWhile p ++ d :: y
  | [], d, y, hd => by
    have hnd : ¬ p d = true := by simp [hd]
    simp [List.dropWhile_cons_of_neg hnd]
  | c :: t, d, y, hd => by
    by_cases hc : p c = true
    · simp [List.dropWhile_cons, hc, dropWhile_append_break t y hd]
    · simp [List.dropWhile_cons, hc]

theorem chompWs_newline (b y : List Char) :
    ∃ S, (∀ c ∈ S, pySpace c = true) ∧
      chompWs ('\n' :: (b ++ '`' :: y)) =
        some (S ++ (b.dropWhile pySpace ++ '`' :: y)) := by
  refine ⟨(('\n' :: b.takeWhile pySpace).reverse.takeWhile (fun c => c != '\n')).reverse,
    ?_, ?_⟩
  · intro c hc
    rw [List.mem_reverse] at hc
    have hc2 : c ∈ ('\n' :: b.takeWhile pySpace).reverse :=
      (List.takeWhile_sublist _).subset hc
    rw [List.mem_reverse, List.mem_cons] at hc2
    rcases hc2 with hc2 | hc2
    · rw [hc2]; decide
    · exact List.mem_takeWhile_imp hc2
  · unfold chompWs chompClass
    have ht : ('\n' :: (b ++ '`' :: y)).takeWhile pySpace =
        '\n' :: b.takeWhile pySpace := by
      rw [List.takeWhile_cons]
      simp only [show pySpace '\n' = true from by decide, if_true]
      rw [takeWhile_append_break b y (by decide)]
    have hd : ('\n' :: (b ++ '`' :: y)).dropWhile pySpace =
        b.dropWhile pySpace ++ '`' :: y := by
      rw [List.dropWhile_cons]
      simp only [show pySpace '\n' = true from by decide, if_true]
      rw [dropWhile_append_break b y (by decide)]
    rw [ht, hd, if_pos (by simp)]

theorem parseFilename_fence (w : List Char) (r : List Char) (hw : w ≠ [])
    (hwc : ∀ c ∈ w, isWordChar c = true) :
    parseFilename (w ++ '.' :: 't' :: 'f' :: r) = some (w ++ ['.', 't', 'f'], r) := by
  unfold parseFilename
  rw [takeWhile_append_stop w _ hwc (by decide), dropWhile_append_stop w _ hwc (by decide),
    if_neg hw]
  simp

theorem parseHeaderM1_fence (w b y : List Char) (hw : w ≠ [])
    (hwc : ∀ c ∈ w, isWordChar c = true) :
    ∃ S, (∀ c ∈ S, pySpace c = true) ∧
      parseHeaderM1 (w ++ '.' :: 't' :: 'f' :: '\n' :: (b ++ '`' :: y)) =
        some (some (w ++ ['.', 't', 'f']), S ++ (b.dropWhile pySpace ++ '`' :: y)) := by
  obtain ⟨S, hs, hc⟩ := chompWs_newline b y
  refine ⟨S, hs, ?_⟩
  unfold parseHeaderM1
  rw [parseFilename_fence w _ hw hwc]
  simp only []
  rw [hc]

theorem pstrip_congr {a b : List Char} (h : a.dropWhile pySpace = b.dropWhile pySpace) :
    pstrip a = pstrip b := by
  unfold pstrip
  rw [h]

theorem tryM1At_fence (w b rest : List Char) (hw : w ≠ [])
    (hwc : ∀ c ∈ w, isWordChar c = true) (hb : '`' ∉ b) :
    ∃ body, tryM1At (fenceText (w ++ ['.', 't', 'f']) b ++ rest) =
        some (some (w ++ ['.', 't', 'f']), body, rest) ∧
      pstrip body = pstrip b := by
  have hshape : fenceText (w ++ ['.', 't', 'f']) b ++ rest =
      '`' :: '`' :: '`' :: (w ++ '.' :: 't' :: 'f' :: '\n' ::
        (b ++ '`' :: '`' :: '`' :: rest)) := by
    simp [fenceText, List.append_assoc]
  obtain ⟨S, hs, hhdr⟩ := parseHeaderM1_fence w b ('`' :: '`' :: rest) hw hwc
  have hnotick : '`' ∉ S ++ b.dropWhile pySpace := by
    intro hmem
    rcases List.mem_append.mp hmem with hmem | hmem
    · have := hs _ hmem
      simp [pySpace] at this
    · exact hb ((List.dropWhile_sublist pySpace).subset hmem)
  refine ⟨S ++ b.dropWhile pySpace, ?_, ?_⟩
  · rw [hshape]
    unfold tryM1At
    rw [if_pos (by rw [startsWithTriple_triple])]
    simp only [List.drop]
    rw [hhdr]
    simp only []
    have hsplit : splitAtTriple (S ++ (b.dropWhile pySpace ++ '`' :: '`' :: '`' :: rest)) =
        some (S ++ b.dropWhile pySpace, rest) := by
      rw [← List.append_assoc]
      exact splitAtTriple_prefix _ rest hnotick
    rw [hsplit]
  · apply pstrip_congr
    rw [dropWhile_append_all S _ hs, dropWhile_idem]

theorem parseFilename_shape {l nm rest : List Char}
    (h : parseFilename l = some (nm, rest)) : l = nm ++ rest ∧ nm ≠ [] := by
  unfold parseFilename at h
  by_cases hw : l.takeWhile isWordChar = []
  · rw [if_pos hw] at h
    exact absurd h (by simp)
  · rw [if_neg hw] at h
    split at h
    · rename_i c1 c2 r heq
      split at h
      · simp only [Option.some.injEq, Prod.mk.injEq] at h
        obtain ⟨hnm, hrest⟩ := h
        subst hnm
        subst hrest
        refine ⟨?_, by simp [hw]⟩
        have hl : l.takeWhile isWordChar ++ l.dropWhile isWordChar = l :=
          List.takeWhile_append_dropWhile isWordChar l
        conv_lhs => rw [← hl]
        rw [heq, List.append_assoc]
        simp
      · exact absurd h (by simp)
    · exact absurd h (by simp)

theorem prefixCi_shape :
    ∀ {p l r : List Char}, prefixCi p l = some r → ∃ q, l = q ++ r ∧ q.length = p.length
  | [], l, r, h => by
    unfold prefixCi at h
    simp at h
    exact ⟨[], by simp [h]⟩
  | a :: ps, [], r, h => by unfold prefixCi at h; simp at h
  | a :: ps, c :: cr, r, h => by
    unfold prefixCi at h
    split at h
    · obtain ⟨q, hq, hlen⟩ := prefixCi_shape h
      exact ⟨c :: q, by simp [hq], by simp [hlen]⟩
    · exact absurd h (by simp)

theorem chompClass_shape {cls : Char → Bool} {l r : List Char}
    (h : chompClass cls l = some r) : ∃ q, q ≠ [] ∧ l = q ++ r := by
  unfold chompClass at h
  split at h
  · rename_i hmem
    simp only [Option.some.injEq] at h
    set ws := l.takeWhile cls with hws
    set S := (ws.reverse.takeWhile (fun c => c != '\n')).reverse with hS
    set T := (ws.reverse.dropWhile (fun c => c != '\n')).reverse with hT
    have hws_split : ws = T ++ S := by
      have : ws.reverse.takeWhile (fun c => c != '\n') ++
          ws.reverse.dropWhile (fun c => c != '\n') = ws.reverse :=
        List.takeWhile_append_dropWhile _ _
      calc ws = ws.reverse.reverse := by rw [List.reverse_reverse]
        _ = (ws.reverse.takeWhile (fun c => c != '\n') ++
              ws.reverse.dropWhile (fun c => c != '\n')).reverse := by rw [this]
        _ = T ++ S := by rw [List.reverse_append]
    have hT_ne : T ≠ [] := by
      intro hTnil
      have : ws.reverse.dropWhile (fun c => c != '\n') = [] := by
        have := congrArg List.reverse hTnil
        simpa [hT] using this
      have hall : ws.reverse.takeWhile (fun c => c != '\n') = ws.reverse := by
        have h2 := List.takeWhile_append_dropWhile (fun c : Char => c != '\n') ws.reverse
        rw [this] at h2
        simpa using h2
      have hnl : '\n' ∈ ws.reverse := by simpa using hmem
      have := List.mem_takeWhile_imp (hall ▸ hnl)
      simp at this
    refine ⟨T, hT_ne, ?_⟩
    have hl : ws ++ l.dropWhile cls = l := List.takeWhile_append_dropWhile cls l
    rw [← h]
    conv_lhs => rw [← hl, hws_split]
    rw [List.append_assoc]
  · exact absurd h (by simp)

theorem parseLangWsHcl_shape {l r : List Char} (h : parseLangWsHcl l = some r) :
    ∃ q, q ≠ [] ∧ l = q ++ r := by
  unfold parseLangWsHcl at h
  split at h
  · rename_i rest hpre
    split at h
    · rename_i r2 hch
      simp only [Option.some.injEq] at h
      subst h
      obtain ⟨q1, hq1, hq1len⟩ := prefixCi_shape hpre
      obtain ⟨q2, hq2ne, hq2⟩ := chompClass_shape hch
      exact ⟨q1 ++ q2, by simp [hq2ne], by rw [hq1, hq2, List.append_assoc]⟩
    · exact chompClass_shape h
  · exact chompClass_shape h

theorem parseLangWs_shape {l r : List Char} (h : parseLangWs l = some r) :
    ∃ q, q ≠ [] ∧ l = q ++ r := by
  unfold parseLangWs at h
  split at h
  · rename_i rest hpre
    split at h
    · rename_i r2 hch
      simp only [Option.some.injEq] at h
      subst h
      obtain ⟨q1, hq1, hq1len⟩ := prefixCi_shape hpre
      obtain ⟨q2, hq2ne, hq2⟩ := chompClass_shape hch
      exact ⟨q1 ++ q2, by simp [hq2ne], by rw [hq1, hq2, List.append_assoc]⟩
    · exact parseLangWsHcl_shape h
  · exact parseLangWsHcl_shape h

theorem parseHeaderM1_shape {l : List Char} {nm : Option (List Char)} {r : List Char}
    (h : parseHeaderM1 l = some (nm, r)) : ∃ q, q ≠ [] ∧ l = q ++ r := by
  unfold parseHeaderM1 at h
  split at h
  · rename_i fn rest hpf
    split at h
    · rename_i r2 hch
      simp only [Option.some.injEq, Prod.mk.injEq] at h
      obtain ⟨_, hr⟩ := h
      subst hr
      obtain ⟨hl, hfn⟩ := parseFilename_shape hpf
      obtain ⟨q2, hq2ne, hq2⟩ := chompClass_shape hch
      exact ⟨fn ++ q2, by simp [hfn], by rw [hl, hq2, List.append_assoc]⟩
    · split at h
      · rename_i r2 hlang
        simp only [Option.some.injEq, Prod.mk.injEq] at h
        obtain ⟨_, hr⟩ := h
        subst hr
        exact parseLangWs_shape hlang
      · exact absurd h (by simp)
  · split at h
    · rename_i r2 hlang
      simp only [Option.some.injEq, Prod.mk.injEq] at h
      obtain ⟨_, hr⟩ := h
      subst hr
      exact parseLangWs_shape hlang
    · exact absurd h (by simp)

theorem tryM1At_length {l : List Char} {nm : Option (List Char)} {body rest : List Char}
    (h : tryM1At l = some (nm, body, rest)) : rest.length < l.length := by
  unfold tryM1At at h
  split at h
  · rename_i hs
    obtain ⟨y, hy⟩ := startsWithTriple_shape (by simpa using hs)
    subst hy
    simp only [List.drop] at h
    split at h
    · rename_i nm' r1 hhdr
      split at h
      · rename_i body' rest' hsp
        simp only [Option.some.injEq, Prod.mk.injEq] at h
        obtain ⟨_, _, hrest⟩ := h
        subst hrest
        obtain ⟨q, hqne, hq⟩ := parseHeaderM1_shape hhdr
        have hshape := splitAtTriple_shape _ _ _ hsp
        subst hq
        subst hshape
        simp [List.length_append]
        omega
      · exact absurd h (by simp)
    · exact absurd h (by simp)
  · exact absurd h (by simp)

theorem tryM1At_cons_ne {c : Char} (t : List Char) (h : c ≠ '`') :
    tryM1At (c :: t) = none := by
  unfold tryM1At
  rw [if_neg]
  simp [startsWithTriple_cons_ne t h]

theorem scanM1Aux_eq :
    ∀ (f1 f2 : Nat) (l : List Char), l.length ≤ f1 → l.length ≤ f2 →
      scanM1Aux f1 l = scanM1Aux f2 l
  | 0, f2, l, h1, _ => by
    have : l = [] := by
      cases l with
      | nil => rfl
      | cons c t => simp at h1
    subst this
    cases f2 <;> simp [scanM1Aux]
  | f + 1, 0, l, _, h2 => by
    have : l = [] := by
      cases l with
      | nil => rfl
      | cons c t => simp at h2
    subst this
    simp [scanM1Aux]
  | f + 1, g + 1, [], _, _ => by simp [scanM1Aux]
  | f + 1, g + 1, c :: t, h1, h2 => by
    rw [scanM1Aux, scanM1Aux]
    match htr : tryM1At (c :: t) with
    | some (nm, body, rest) =>
      have hlen := tryM1At_length htr
      simp only [List.length_cons] at hlen h1 h2
      dsimp only
      rw [scanM1Aux_eq f g rest (by omega) (by omega)]
    | none =>
      dsimp only
      exact scanM1Aux_eq f g t (by simp at h1; omega) (by simp at h2; omega)

theorem scanM1Aux_norm (f : Nat) (l : List Char) (h : l.length ≤ f) :
    scanM1Aux f l = scanM1 l :=
  scanM1Aux_eq f l.length l h (Nat.le_refl _)

theorem scanM1_cons_ne {c : Char} (t : List Char) (h : c ≠ '`') :
    scanM1 (c :: t) = scanM1 t := by
  unfold scanM1
  rw [show (c :: t).length = t.length + 1 from rfl, scanM1Aux, tryM1At_cons_ne t h]

theorem scanM1_prose :
    ∀ (p r : List Char), '`' ∉ p → scanM1 (p ++ r) = scanM1 r
  | [], r, _ => by simp
  | c :: t, r, hp => by
    have hc : c ≠ '`' := fun hcc => hp (by simp [hcc])
    rw [List.cons_append, scanM1_cons_ne _ hc,
      scanM1_prose t r (fun hm => hp (by simp [hm]))]

theorem scanM1_fence (w b rest : List Char) (hw : w ≠ [])
    (hwc : ∀ c ∈ w, isWordChar c = true) (hb : '`' ∉ b) :
    ∃ body, scanM1 (fenceText (w ++ ['.', 't', 'f']) b ++ rest) =
        (some (w ++ ['.', 't', 'f']), body) :: scanM1 rest ∧
      pstrip body = pstrip b := by
  obtain ⟨body, htry, hps⟩ := tryM1At_fence w b rest hw hwc hb
  refine ⟨body, ?_, hps⟩
  have hshape : fenceText (w ++ ['.', 't', 'f']) b ++ rest =
      '`' :: ('`' :: '`' :: (w ++ '.' :: 't' :: 'f' :: '\n' ::
        (b ++ '`' :: '`' :: '`' :: rest))) := by
    simp [fenceText, List.append_assoc]
  rw [hshape] at htry ⊢
  unfold scanM1
  rw [show ('`' :: ('`' :: '`' :: (w ++ '.' :: 't' :: 'f' :: '\n' ::
      (b ++ '`' :: '`' :: '`' :: rest)))).length =
    ('`' :: '`' :: (w ++ '.' :: 't' :: 'f' :: '\n' ::
      (b ++ '`' :: '`' :: '`' :: rest))).length + 1 from rfl]
  rw [scanM1Aux, htry]
  dsimp only
  have hlen := tryM1At_length htry
  rw [scanM1Aux_norm _ rest (by simp only [List.length_cons] at hlen ⊢; omega)]
  rfl



theorem scanM1_renderThree (p0 b1 p1 b2 p2 b3 p3 : List Char)
    (h0 : '`' ∉ p0) (h1 : '`' ∉ p1) (h2 : '`' ∉ p2) (h3 : '`' ∉ p3)
    (hb1 : '`' ∉ b1) (hb2 : '`' ∉ b2) (hb3 : '`' ∉ b3) :
    ∃ c1 c2 c3, scanM1 (renderThree p0 b1 p1 b2 p2 b3 p3) =
        [(some (cs "main.tf"), c1), (some (cs "variables.tf"), c2),
         (some (cs "outputs.tf"), c3)] ∧
      pstrip c1 = pstrip b1 ∧ pstrip c2 = pstrip b2 ∧ pstrip c3 = pstrip b3 := by
  have e1 : cs "main.tf" = cs "main" ++ ['.', 't', 'f'] := by decide
  have e2 : cs "variables.tf" = cs "variables" ++ ['.', 't', 'f'] := by decide
  have e3 : cs "outputs.tf" = cs "outputs" ++ ['.', 't', 'f'] := by decide
  have hr : renderThree p0 b1 p1 b2 p2 b3 p3 =
      p0 ++ (fenceText (cs "main" ++ ['.', 't', 'f']) b1 ++
        (p1 ++ (fenceText (cs "variables" ++ ['.', 't', 'f']) b2 ++
          (p2 ++ (fenceText (cs "outputs" ++ ['.', 't', 'f']) b3 ++ p3))))) := by
    rw [renderThree, ← e1, ← e2, ← e3]
    simp [List.append_assoc]
  obtain ⟨c1, hs1, hp1⟩ := scanM1_fence (cs "main") b1
    (p1 ++ (fenceText (cs "variables" ++ ['.', 't', 'f']) b2 ++
      (p2 ++ (fenceText (cs "outputs" ++ ['.', 't', 'f']) b3 ++ p3))))
    (by decide) (by decide) hb1
  obtain ⟨c2, hs2, hp2⟩ := scanM1_fence (cs "variables") b2
    (p2 ++ (fenceText (cs "outputs" ++ ['.', 't', 'f']) b3 ++ p3))
    (by decide) (by decide) hb2
  obtain ⟨c3, hs3, hp3⟩ := scanM1_fence (cs "outputs") b3 p3
    (by decide) (by decide) hb3
  refine ⟨c1, c2, c3, ?_, hp1, hp2, hp3⟩
  have hp3nil : scanM1 p3 = [] := by
    have h := scanM1_prose p3 [] h3
    rw [List.append_nil] at h
    rw [h]
    rfl
  rw [hr, scanM1_prose _ _ h0, hs1, scanM1_prose _ _ h1, hs2,
    scanM1_prose _ _ h2, hs3, hp3nil, e1, e2, e3]

theorem method1Files_renderThree (p0 b1 p1 b2 p2 b3 p3 : List Char)
    (h0 : '`' ∉ p0) (h1 : '`' ∉ p1) (h2 : '`' ∉ p2) (h3 : '`' ∉ p3)
    (hb1 : '`' ∉ b1) (hb2 : '`' ∉ b2) (hb3 : '`' ∉ b3) :
    method1Files (renderThree p0 b1 p1 b2 p2 b3 p3) =
      [(cs "main.tf", pstrip b1), (cs "variables.tf", pstrip b2),
       (cs "outputs.tf", pstrip b3)] := by
  obtain ⟨c1, c2, c3, hscan, hp1, hp2, hp3⟩ :=
    scanM1_renderThree p0 b1 p1 b2 p2 b3 p3 h0 h1 h2 h3 hb1 hb2 hb3
  unfold method1Files
  rw [hscan]
  have ew1 : endsWithDotTf (cs "main.tf") = true := by decide
  have ew2 : endsWithDotTf (cs "variables.tf") = true := by decide
  have ew3 : endsWithDotTf (cs "outputs.tf") = true := by decide
  have ne12 : (cs "main.tf" == cs "variables.tf") = false := by decide
  have ne13 : (cs "main.tf" == cs "outputs.tf") = false := by decide
  have ne23 : (cs "variables.tf" == cs "outputs.tf") = false := by decide
  simp only [List.foldl, ew1, ew2, ew3, if_true, dinsert, List.any, containsKey]
  simp [dinsert, ne12, ne13, ne23, hp1, hp2, hp3, BEq.symm_false]

theorem c7_three_fenced_blocks (p0 p1 p2 p3 b1 b2 b3 : List Char)
    (h0 : '`' ∉ p0) (h1 : '`' ∉ p1) (h2 : '`' ∉ p2) (h3 : '`' ∉ p3)
    (hb1 : '`' ∉ b1) (hb2 : '`' ∉ b2) (hb3 : '`' ∉ b3) :
    extract_code_blocks (renderThree p0 b1 p1 b2 p2 b3 p3) =
      [(cs "main.tf", pstrip b1), (cs "variables.tf", pstrip b2),
       (cs "outputs.tf", pstrip b3)] := by
  have hm1 := method1Files_renderThree p0 b1 p1 b2 p2 b3 p3 h0 h1 h2 h3 hb1 hb2 hb3
  unfold extract_code_blocks
  rw [hm1]
  dsimp only
  rw [if_neg (by simp), if_neg (by simp), if_neg (by simp)]
  unfold method4
  have hk1 : containsKey [(cs "main.tf", pstrip b1), (cs "variables.tf", pstrip b2),
      (cs "outputs.tf", pstrip b3)] (cs "main.tf") = true := by
    simp [containsKey]
  have hk2 : containsKey [(cs "main.tf", pstrip b1), (cs "variables.tf", pstrip b2),
      (cs "outputs.tf", pstrip b3)] (cs "variables.tf") = true := by
    simp [containsKey]
  have hk3 : containsKey [(cs "main.tf", pstrip b1), (cs "variables.tf", pstrip b2),
      (cs "outputs.tf", pstrip b3)] (cs "outputs.tf") = true := by
    simp [containsKey]
  simp [requiredFiles, List.filter, hk1, hk2, hk3]



theorem c7_counterexample :
    (scanM1 t7Response).map Prod.fst =
      [some (cs "a.tf"), some (cs "b.tf"), some (cs "c.tf")] ∧
    (extract_code_blocks t7Response).length = 4 ∧
    List.lookup (cs "main.tf") (extract_code_blocks t7Response) ≠ none := by
  decide

theorem c7_witness :
    extract_code_blocks (renderThree (cs "Sure: ") (cs "resource one") (cs "\nnext\n")
        (cs "variable two") (cs "\n") (cs "output three") (cs "\nbye")) =
      [(cs "main.tf", pstrip (cs "resource one")),
       (cs "variables.tf", pstrip (cs "variable two")),
       (cs "outputs.tf", pstrip (cs "output three"))] :=
  c7_three_fenced_blocks (cs "Sure: ") (cs "\nnext\n") (cs "\n") (cs "\nbye")
    (cs "resource one") (cs "variable two") (cs "output three")
    (by decide) (by decide) (by decide) (by decide)
    (by decide) (by decide) (by decide)

theorem lookup_map_replace :
    ∀ (m : FileMap) (k k' v : List Char), k' ≠ k →
      List.lookup k (m.map (fun p => bif p.1 == k' then (k', v) else p)) =
        List.lookup k m
  | [], _, _, _, _ => rfl
  | (pk, pv) :: t, k, k', v, h => by
    have hkk' : (k == k') = false := by
      rw [beq_eq_false_iff_ne]
      exact fun he => h he.symm
    cases hp : pk == k' with
    | true =>
      have hpe : pk = k' := eq_of_beq hp
      subst hpe
      simp [List.lookup, hp, hkk', lookup_map_replace t k pk v h]
    | false =>
      by_cases hk : (k == pk) = true
      · simp [List.lookup, hp, hk]
      · simp [List.lookup, hp, hk, lookup_map_replace t k k' v h]

theorem lookup_append_one :
    ∀ (m : FileMap) (k k' v : List Char), k' ≠ k →
      List.lookup k (m ++ [(k', v)]) = List.lookup k m
  | [], k, k', v, h => by
    have hkk : (k == k') = false := by
      rw [beq_eq_false_iff_ne]
      exact fun he => h he.symm
    simp [List.lookup, hkk]
  | (pk, pv) :: t, k, k', v, h => by
    simp only [List.cons_append, List.lookup]
    by_cases hk : (k == pk) = true
    · simp [hk]
    · simp only [hk]
      exact lookup_append_one t k k' v h

theorem lookup_dinsert_ne (m : FileMap) {k k' : List Char} (v : List Char)
    (h : k' ≠ k) :
    List.lookup k (dinsert m k' v) = List.lookup k m := by
  unfold dinsert
  split
  · exact lookup_map_replace m k k' v h
  · exact lookup_append_one m k k' v h

theorem lookup_method4Step (text : List Char) (fs : FileMap) {fn k : List Char}
    (h : fn ≠ k) :
    List.lookup k (method4Step text fs fn) = List.lookup k fs := by
  unfold method4Step
  split
  · dsimp only
    split
    · exact lookup_dinsert_ne fs _ h
    · rfl
  · rfl

theorem lookup_method4_fold :
    ∀ (missing : List (List Char)) (text : List Char) (fs : FileMap) (k : List Char),
      (∀ f ∈ missing, f ≠ k) →
      List.lookup k (missing.foldl (method4Step text) fs) = List.lookup k fs
  | [], _, _, _, _ => rfl
  | f :: ms, text, fs, k, h => by
    simp only [List.foldl]
    rw [lookup_method4_fold ms text _ k (fun x hx => h x (by simp [hx]))]
    exact lookup_method4Step text fs (h f (by simp))

/-- C8 (amended): Method 4, the targeted re-scan for missing canonical
files, never overwrites an existing filename entry: lookups of existing
keys are unchanged.  (Methods 2, 2b and 3, by contrast, do overwrite, as
the counterexample shows.) -/
theorem c8_method4_never_overwrites (text : List Char) (files : FileMap)
    (k : List Char) (h : containsKey files k = true) :
    List.lookup k (method4 text files) = List.lookup k files := by
  unfold method4
  dsimp only
  apply lookup_method4_fold
  intro f hf heq
  subst heq
  have hp := List.of_mem_filter hf
  rw [decide_eq_true_eq] at hp
  rw [h] at hp
  exact absurd hp (by simp)



theorem c8_counterexample :
    method1Files t8Response = [(cs "main.tf", cs "resource X")] ∧
    extract_code_blocks t8Response = [(cs "main.tf", cs "BBBBBBBBBBBBBB")] := by
  decide

theorem c8_witness :
    List.lookup (cs "main.tf")
        (method4 t8Response [(cs "main.tf", cs "resource one")]) =
      List.lookup (cs "main.tf") [(cs "main.tf", cs "resource one")] :=
  c8_method4_never_overwrites t8Response [(cs "main.tf", cs "resource one")]
    (cs "main.tf") (by decide)


/-! ### Theorems about run_checks and the checkers -/

theorem lookup_kinsert_map_replace {α : Type} :
    ∀ (m : List (String × α)) (k k' : String) (v : α), k' ≠ k →
      List.lookup k (m.map (fun p => bif p.1 == k' then (k', v) else p)) =
        List.lookup k m
  | [], _, _, _, _ => rfl
  | (pk, pv) :: t, k, k', v, h => by
    have hkk' : (k == k') = false := by
      rw [beq_eq_false_iff_ne]
      exact fun he => h he.symm
    cases hp : pk == k' with
    | true =>
      have hpe : pk = k' := eq_of_beq hp
      subst hpe
      simp [List.lookup, hp, hkk', lookup_kinsert_map_replace t k pk v h]
    | false =>
      by_cases hk : (k == pk) = true
      · simp [List.lookup, hp, hk]
      · simp [List.lookup, hp, hk, lookup_kinsert_map_replace t k k' v h]

theorem lookup_kinsert_append_one {α : Type} :
    ∀ (m : List (String × α)) (k k' : String) (v : α), k' ≠ k →
      List.lookup k (m ++ [(k', v)]) = List.lookup k m
  | [], k, k', v, h => by
    have hkk : (k == k') = false := by
      rw [beq_eq_false_iff_ne]
      exact fun he => h he.symm
    simp [List.lookup, hkk]
  | (pk, pv) :: t, k, k', v, h => by
    simp only [List.cons_append, List.lookup]
    by_cases hk : (k == pk) = true
    · simp [hk]
    · simp only [hk]
      exact lookup_kinsert_append_one t k k' v h

/-- Looking up a different key is unaffected by a `kinsert`. -/
theorem lookup_kinsert_ne {α : Type} (m : List (String × α)) {k k' : String}
    (v : α) (h : k' ≠ k) :
    List.lookup k (kinsert m k' v) = List.lookup k m := by
  unfold kinsert
  split
  · exact lookup_kinsert_map_replace m k k' v h
  · exact lookup_kinsert_append_one m k k' v h

theorem lookup_kinsert_map_replace_self {α : Type} :
    ∀ (m : List (String × α)) (k : String) (v : α),
      m.any (fun p => p.1 == k) = true →
      List.lookup k (m.map (fun p => bif p.1 == k then (k, v) else p)) = some v
  | [], k, v, h => by simp at h
  | (pk, pv) :: t, k, v, h => by
    cases hp : pk == k with
    | true =>
      simp [List.lookup, hp]
    | false =>
      have ht : t.any (fun p => p.1 == k) = true := by
        simp only [List.any_cons, hp, Bool.false_or] at h
        exact h
      have hk : (k == pk) = false := by
        rw [beq_eq_false_iff_ne]
        intro he
        rw [he] at hp
        simp at hp
      simp [List.lookup, hp, hk, lookup_kinsert_map_replace_self t k v ht]

/-- Looking up the inserted key finds the inserted value. -/
theorem lookup_kinsert_self {α : Type} :
    ∀ (m : List (String × α)) (k : String) (v : α),
      List.lookup k (kinsert m k v) = some v := by
  intro m k v
  unfold kinsert
  split
  · exact lookup_kinsert_map_replace_self m k v (by assumption)
  · induction m with
    | nil => simp [List.lookup]
    | cons p t ih =>
      rename_i h
      rw [List.any_cons, Bool.or_eq_true, not_or] at h
      have hp : (p.1 == k) = false := by
        cases hh : p.1 == k
        · rfl
        · exact absurd hh h.1
      have ht : ¬ t.any (fun q => q.1 == k) = true := h.2
      have hk : (k == p.1) = false := by
        rw [beq_eq_false_iff_ne]
        intro he
        rw [he] at hp
        simp at hp
      cases p with
      | mk pk pv =>
        simp only [List.cons_append, List.lookup]
        simp only at hk
        simp only [hk]
        exact ih (by simpa using ht)

/-- C3: an unrecognized task id never reaches the generic existence check:
the dispatch fallback of `run_checks` calls `log_warn`, a name checks.py does
not import, raising NameError; and `_check_generic` itself would raise the
same NameError on a non-empty outputs document before returning pass=true. -/
theorem c3_dispatch_fallback_raises :
    runChecks (some { checks := {} }) (some [("result", OutVal.s "ok")])
      noopEc2 noopS3 noopIam "task_custom_check" =
        Except.error nameErrorLogWarn ∧
    check_generic [("result", OutVal.s "ok")] "task_custom_check" {} =
      Except.error nameErrorLogWarn :=
  ⟨rfl, rfl⟩


/-- Properties of the instance assertion block when its query succeeds: a
false pass flag is preserved, errors are preserved, and the instance count
and the `instances_in_subnets` wiring entry are recorded. -/
theorem vpc3_instances_section_props (ec2 : Ec2Client) (task_id vpc_id : String)
    (expected : Checks) (subnet_ids : List String) (st : CkOut)
    (resvs : List ReservationR)
    (hinst : ec2.describe_instances_by_tag_vpc task_id vpc_id = Except.ok resvs) :
    (st.pass = false →
      (vpc3_instances_section ec2 task_id vpc_id expected subnet_ids st).pass = false) ∧
    (∀ x ∈ st.errors,
      x ∈ (vpc3_instances_section ec2 task_id vpc_id expected subnet_ids st).errors) ∧
    (vpc3_instances_section ec2 task_id vpc_id expected subnet_ids st).counts =
      kinsert st.counts "instance"
        ((resvs.foldl (fun acc rr => acc ++ rr.instances) []).length : Int) ∧
    (vpc3_instances_section ec2 task_id vpc_id expected subnet_ids st).wiring =
      kinsert st.wiring "instances_in_subnets" true := by
  unfold vpc3_instances_section
  rw [hinst]
  dsimp only
  refine ⟨?_, ?_, ?_, ?_⟩
  · intro hp
    split <;> simp [hp]
  · intro x hx
    split <;> simp [hx]
  · split <;> rfl
  · split <;> rfl

/-- C2 counterexample: a failing `describe_vpcs` query aborts the checker at
once — the returned result carries only the VPC error, records no counts and
no wiring — even though the very next declared assertion's query (the subnet
query, second conjunct) would have succeeded. -/
def c2Ec2 : Ec2Client :=
  { noopEc2 with
    describe_vpcs := fun _ => Except.error "boom",
    describe_subnets_by_vpc_tag := fun _ _ => Except.ok [{ vpcId := "vpc-1" }] }

/-- The outputs document used by the C2 counterexample and witness. -/
def c2Out : TfOutputs := [("vpc_id", OutVal.s "vpc-1")]

/-- C2: refuted as stated — when the VPC query fails, `_check_vpc_3subnets_3ec2`
returns immediately with a single error and empty counts and wiring, although
the subnet query of the next assertion would succeed. -/
theorem c2_counterexample :
    check_vpc_3subnets_3ec2 c2Ec2 c2Out "task_vpc_3subnets_3ec2" {} =
      { pass := false, errors := ["Failed to describe VPC: boom"],
        counts := [], wiring := [], details := [] } ∧
    c2Ec2.describe_subnets_by_vpc_tag "vpc-1" "task_vpc_3subnets_3ec2" =
      Except.ok [{ vpcId := "vpc-1" }] :=
  ⟨rfl, rfl⟩

/-- C2 (amended): past the VPC block, a control-plane query failure is
non-fatal per-assertion — a failing subnet query appends its error and forces
pass to false, yet the instance assertion is still evaluated and its count
and wiring entries recorded. -/
theorem c2_query_failure_nonfatal (ec2 : Ec2Client) (outputs : TfOutputs)
    (task_id : String) (expected : Checks) (v e : String)
    (resvs : List ReservationR) (vpcs : List String)
    (hv : getOutStr outputs "vpc_id" = some v)
    (hne : v ≠ "") (hnull : v ≠ "null")
    (hvpc : ec2.describe_vpcs [v] = Except.ok vpcs)
    (hsub : ec2.describe_subnets_by_vpc_tag v task_id = Except.error e)
    (hinst : ec2.describe_instances_by_tag_vpc task_id v = Except.ok resvs) :
    (check_vpc_3subnets_3ec2 ec2 outputs task_id expected).pass = false ∧
    ("Failed to describe subnets: " ++ e) ∈
      (check_vpc_3subnets_3ec2 ec2 outputs task_id expected).errors ∧
    List.lookup "instance" (check_vpc_3subnets_3ec2 ec2 outputs task_id expected).counts =
      some ((resvs.foldl (fun acc rr => acc ++ rr.instances) []).length : Int) ∧
    List.lookup "instances_in_subnets"
      (check_vpc_3subnets_3ec2 ec2 outputs task_id expected).wiring = some true := by
  have hcond : ¬ (truthyStr (getOutStr outputs "vpc_id") = false ∨
      getOutStr outputs "vpc_id" = some "null") := by
    rw [hv]
    simp [truthyStr, hne, hnull]
  unfold check_vpc_3subnets_3ec2
  rw [if_neg hcond, hv]
  dsimp only [Option.getD]
  rw [hvpc]
  dsimp only
  unfold vpc3_subnets_section
  rw [hsub]
  dsimp only
  refine ⟨(vpc3_instances_section_props ec2 task_id v expected _ _ resvs hinst).1 rfl,
    (vpc3_instances_section_props ec2 task_id v expected _ _ resvs hinst).2.1 _ (by simp),
    ?_, ?_⟩
  · rw [(vpc3_instances_section_props ec2 task_id v expected _ _ resvs hinst).2.2.1]
    exact lookup_kinsert_self _ _ _
  · rw [(vpc3_instances_section_props ec2 task_id v expected _ _ resvs hinst).2.2.2]
    exact lookup_kinsert_self _ _ _

/-- The EC2 client of the C2 witness: the subnet query fails while the VPC
and instance queries succeed. -/
def c2WEc2 : Ec2Client :=
  { noopEc2 with
    describe_vpcs := fun _ => Except.ok ["vpc-1"],
    describe_subnets_by_vpc_tag := fun _ _ => Except.error "nope",
    describe_instances_by_tag_vpc := fun _ _ =>
      Except.ok [{ instances := [{ subnetId := "s-1", iamInstanceProfile := none }] }] }

/-- C2 witness: the amended theorem at a concrete client. -/
theorem c2_witness :
    (check_vpc_3subnets_3ec2 c2WEc2 c2Out "task_vpc_3subnets_3ec2" {}).pass = false ∧
    ("Failed to describe subnets: " ++ "nope") ∈
      (check_vpc_3subnets_3ec2 c2WEc2 c2Out "task_vpc_3subnets_3ec2" {}).errors ∧
    List.lookup "instance"
      (check_vpc_3subnets_3ec2 c2WEc2 c2Out "task_vpc_3subnets_3ec2" {}).counts =
        some 1 ∧
    List.lookup "instances_in_subnets"
      (check_vpc_3subnets_3ec2 c2WEc2 c2Out "task_vpc_3subnets_3ec2" {}).wiring =
        some true :=
  c2_query_failure_nonfatal c2WEc2 c2Out "task_vpc_3subnets_3ec2" {} "vpc-1" "nope"
    [{ instances := [{ subnetId := "s-1", iamInstanceProfile := none }] }] ["vpc-1"]
    rfl (by decide) (by decide) rfl rfl rfl


/-- Inversion of a successful `Except` bind. -/
theorem ebind_ok {α β : Type} {x : Except String α} {f : α → Except String β}
    {b : β} (h : x >>= f = Except.ok b) :
    ∃ a, x = Except.ok a ∧ f a = Except.ok b := by
  cases x with
  | error e => exact absurd h (by simp [Bind.bind, Except.bind])
  | ok a => exact ⟨a, rfl, by simpa [Bind.bind, Except.bind] using h⟩

/-- A successful versioning block on a bucket whose status is Suspended while
versioning is expected: pass is forced false and the status is quoted in the
appended error. -/
theorem s3_versioning_section_suspended (s3 : S3Client) (b : String)
    (exp : Checks) (st : CkOut)
    (he : truthyBool exp.versioning_enabled = true)
    (hv : s3.get_bucket_versioning b = Except.ok (some "Suspended")) :
    s3_versioning_section s3 b exp st = Except.ok
      { st with
          pass := false,
          errors := st.errors ++ ["Versioning not enabled: Suspended"],
          details := kinsert st.details "versioning_status"
            (DetailVal.str (some "Suspended")) } := by
  unfold s3_versioning_section
  rw [he]
  rw [if_pos rfl, hv]
  dsimp only [Option.getD]
  rw [if_pos (by decide)]
  rfl

/-- The lifecycle block can only keep a false pass flag false and extend the
error list. -/
theorem s3_lifecycle_section_mono (s3 : S3Client) (b : String) (exp : Checks)
    (st st' : CkOut) (h : s3_lifecycle_section s3 b exp st = Except.ok st') :
    (st.pass = false → st'.pass = false) ∧ ∀ x ∈ st.errors, x ∈ st'.errors := by
  unfold s3_lifecycle_section at h
  by_cases hg : truthyInt exp.lifecycle_rule_count = true
  · rw [hg, if_pos rfl] at h
    cases hq : s3.get_bucket_lifecycle b with
    | ok rules =>
      rw [hq] at h
      dsimp only at h
      injection h with h
      subst h
      refine ⟨fun hp => by simp [hp], fun x hx => by simp [hx]⟩
    | error e =>
      rw [hq] at h
      dsimp only at h
      by_cases hs : hasSub e "NoSuchLifecycleConfiguration" = false
      · rw [if_pos hs] at h
        exact Except.noConfusion h
      · rw [if_neg hs, if_pos rfl] at h
        injection h with h
        subst h
        exact ⟨fun _ => rfl, fun x hx => by simp [hx]⟩
  · have hg' : truthyInt exp.lifecycle_rule_count = false := by
      cases hgg : truthyInt exp.lifecycle_rule_count
      · rfl
      · exact absurd hgg hg
    rw [hg'] at h
    rw [if_neg (by simp)] at h
    injection h with h
    subst h
    exact ⟨fun hp => hp, fun x hx => hx⟩

/-- The public-access-block block can only keep a false pass flag false and
extend the error list. -/
theorem s3_pab_section_mono (s3 : S3Client) (b : String) (exp : Checks)
    (st st' : CkOut) (h : s3_pab_section s3 b exp st = Except.ok st') :
    (st.pass = false → st'.pass = false) ∧ ∀ x ∈ st.errors, x ∈ st'.errors := by
  unfold s3_pab_section at h
  by_cases hg : truthyInt exp.public_access_block_count = true
  · rw [hg, if_pos rfl] at h
    cases hq : s3.get_public_access_block b with
    | ok cfg =>
      rw [hq] at h
      dsimp only at h
      injection h with h
      subst h
      exact ⟨fun hp => hp, fun x hx => hx⟩
    | error e =>
      rw [hq] at h
      dsimp only at h
      by_cases hs : hasSub e "NoSuchPublicAccessBlockConfiguration" = false
      · rw [if_pos hs] at h
        exact Except.noConfusion h
      · rw [if_neg hs, if_pos rfl] at h
        injection h with h
        subst h
        exact ⟨fun _ => rfl, fun x hx => by simp [hx]⟩
  · have hg' : truthyInt exp.public_access_block_count = false := by
      cases hgg : truthyInt exp.public_access_block_count
      · rfl
      · exact absurd hgg hg
    rw [hg'] at h
    rw [if_neg (by simp)] at h
    injection h with h
    subst h
    exact ⟨fun hp => hp, fun x hx => hx⟩

/-- The bucket-policy block can only keep a false pass flag false and extend
the error list. -/
theorem s3_policy_section_mono (s3 : S3Client) (b : String) (exp : Checks)
    (st st' : CkOut) (h : s3_policy_section s3 b exp st = Except.ok st') :
    (st.pass = false → st'.pass = false) ∧ ∀ x ∈ st.errors, x ∈ st'.errors := by
  unfold s3_policy_section at h
  by_cases hg : truthyInt exp.bucket_policy_count = true
  · rw [hg, if_pos rfl] at h
    cases hq : s3.get_bucket_policy b with
    | ok pol =>
      rw [hq] at h
      dsimp only at h
      injection h with h
      subst h
      exact ⟨fun hp => hp, fun x hx => hx⟩
    | error e =>
      rw [hq] at h
      dsimp only at h
      by_cases hs : hasSub e "NoSuchBucketPolicy" = false
      · rw [if_pos hs] at h
        exact Except.noConfusion h
      · rw [if_neg hs, if_pos rfl] at h
        injection h with h
        subst h
        exact ⟨fun _ => rfl, fun x hx => by simp [hx]⟩
  · have hg' : truthyInt exp.bucket_policy_count = false := by
      cases hgg : truthyInt exp.bucket_policy_count
      · rfl
      · exact absurd hgg hg
    rw [hg'] at h
    rw [if_neg (by simp)] at h
    injection h with h
    subst h
    exact ⟨fun hp => hp, fun x hx => hx⟩

/-- The CORS block can only keep a false pass flag false and extend the error
list. -/
theorem s3_cors_section_mono (s3 : S3Client) (b : String) (exp : Checks)
    (st st' : CkOut) (h : s3_cors_section s3 b exp st = Except.ok st') :
    (st.pass = false → st'.pass = false) ∧ ∀ x ∈ st.errors, x ∈ st'.errors := by
  unfold s3_cors_section at h
  by_cases hg : truthyInt exp.cors_configuration_count = true
  · rw [hg, if_pos rfl] at h
    cases hq : s3.get_bucket_cors b with
    | ok cors_rules =>
      rw [hq] at h
      dsimp only at h
      by_cases hl : 0 < cors_rules.length
      · rw [if_pos hl] at h
        injection h with h
        subst h
        exact ⟨fun hp => hp, fun x hx => hx⟩
      · rw [if_neg hl, if_pos rfl] at h
        injection h with h
        subst h
        exact ⟨fun _ => rfl, fun x hx => by simp [hx]⟩
    | error e =>
      rw [hq] at h
      dsimp only at h
      by_cases hs : hasSub e "NoSuchCORSConfiguration" = false
      · rw [if_pos hs] at h
        exact Except.noConfusion h
      · rw [if_neg hs, if_pos rfl] at h
        injection h with h
        subst h
        exact ⟨fun _ => rfl, fun x hx => by simp [hx]⟩
  · have hg' : truthyInt exp.cors_configuration_count = false := by
      cases hgg : truthyInt exp.cors_configuration_count
      · rfl
      · exact absurd hgg hg
    rw [hg'] at h
    rw [if_neg (by simp)] at h
    injection h with h
    subst h
    exact ⟨fun hp => hp, fun x hx => hx⟩

/-- C9: for every S3 verification input where the bucket resolves and exists,
the versioning query reports status Suspended, and versioning is expected to
be enabled, any result `_check_s3_tasks` returns has pass=false and an error
quoting the observed status — whatever the remaining assertion blocks do. -/
theorem c9_s3_versioning_suspended (s3 : S3Client) (outputs : TfOutputs)
    (task_id : String) (expected : Checks) (spec : Spec) (st : CkOut)
    (hb : truthyStr (pyOr (getOutStr outputs "bucket_id")
      (getOutStr outputs "bucket_name")) = true)
    (hhead : s3.head_bucket (s3BucketId outputs) = Except.ok ())
    (hv : s3.get_bucket_versioning (s3BucketId outputs) = Except.ok (some "Suspended"))
    (he : truthyBool expected.versioning_enabled = true)
    (hres : check_s3_tasks s3 outputs task_id expected spec = Except.ok st) :
    st.pass = false ∧ "Versioning not enabled: Suspended" ∈ st.errors := by
  unfold check_s3_tasks at hres
  rw [if_neg (by simp [hb])] at hres
  rw [hhead] at hres
  dsimp only at hres
  rw [s3_versioning_section_suspended s3 (s3BucketId outputs) expected _ he hv] at hres
  dsimp only [Bind.bind, Except.bind] at hres
  obtain ⟨st1, h1, hres⟩ := ebind_ok hres
  obtain ⟨st2, h2, hres⟩ := ebind_ok hres
  obtain ⟨st3, h3, hres⟩ := ebind_ok hres
  have m1 := s3_lifecycle_section_mono _ _ _ _ _ h1
  have m2 := s3_pab_section_mono _ _ _ _ _ h2
  have m3 := s3_policy_section_mono _ _ _ _ _ h3
  have m4 := s3_cors_section_mono _ _ _ _ _ hres
  constructor
  · exact m4.1 (m3.1 (m2.1 (m1.1 rfl)))
  · exact m4.2 _ (m3.2 _ (m2.2 _ (m1.2 _ (by simp))))

/-- The S3 client of the C9 witness: the bucket exists and its versioning
status is Suspended. -/
def c9S3 : S3Client :=
  { noopS3 with
    head_bucket := fun _ => Except.ok (),
    get_bucket_versioning := fun _ => Except.ok (some "Suspended") }

/-- The outputs document of the C9 witness. -/
def c9Out : TfOutputs := [("bucket_id", OutVal.s "my-bucket")]

/-- The expected checks of the C9 witness: versioning must be enabled. -/
def c9Checks : Checks := { versioning_enabled := some true }

/-- The S3 client of the C9 counterexample: the bucket exists and reports
Suspended versioning, but the lifecycle query fails with an error that lacks
the NoSuchLifecycleConfiguration marker. -/
def c9CES3 : S3Client :=
  { noopS3 with
    head_bucket := fun _ => Except.ok (),
    get_bucket_versioning := fun _ => Except.ok (some "Suspended"),
    get_bucket_lifecycle := fun _ => Except.error "AccessDenied" }

/-- The expected checks of the C9 counterexample: versioning enabled and one
lifecycle rule are both declared. -/
def c9CEChecks : Checks :=
  { versioning_enabled := some true, lifecycle_rule_count := some 1 }

/-- C9 counterexample: an input inside the claim's scope — the bucket exists,
the versioning query succeeds with status Suspended, and versioning_enabled
is expected — on which `_check_s3_tasks` does not return a CheckResult at
all: the lifecycle block's failing query reaches `log_warn`, a name checks.py
never imports, and raises NameError. -/
theorem c9_counterexample :
    c9CES3.head_bucket (s3BucketId c9Out) = Except.ok () ∧
    c9CES3.get_bucket_versioning (s3BucketId c9Out) = Except.ok (some "Suspended") ∧
    truthyBool c9CEChecks.versioning_enabled = true ∧
    check_s3_tasks c9CES3 c9Out "task_s3_bucket_versioning" c9CEChecks
      { checks := c9CEChecks } = Except.error nameErrorLogWarn :=
  ⟨rfl, rfl, rfl, rfl⟩


/-- C9 witness: the theorem at a concrete client and outputs document. -/
theorem c9_witness :
    ∃ st, check_s3_tasks c9S3 c9Out "task_s3_bucket_versioning" c9Checks
        { checks := c9Checks } = Except.ok st ∧
      st.pass = false ∧ "Versioning not enabled: Suspended" ∈ st.errors := by
  refine ⟨_, rfl, c9_s3_versioning_suspended c9S3 c9Out "task_s3_bucket_versioning"
    c9Checks { checks := c9Checks } _ (by decide) rfl rfl rfl rfl⟩


/-- Inserting `true` preserves an all-true Boolean map. -/
theorem kinsert_true_all {w : List (String × Bool)} (k : String)
    (h : ∀ p ∈ w, p.2 = true) : ∀ p ∈ kinsert w k true, p.2 = true := by
  unfold kinsert
  split
  · intro p hp
    rw [List.mem_map] at hp
    obtain ⟨q, hq, hqe⟩ := hp
    cases hqk : q.1 == k with
    | true =>
      rw [← hqe]
      simp [hqk]
    | false =>
      rw [← hqe]
      simp only [hqk, cond_false]
      exact h q hq
  · intro p hp
    rw [List.mem_append] at hp
    cases hp with
    | inl hp => exact h p hp
    | inr hp =>
      rw [List.mem_singleton] at hp
      rw [hp]

/-- The subnet block never writes `false` into the wiring map. -/
theorem vpc3_subnets_section_wiring_true (ec2 : Ec2Client)
    (task_id vpc_id : String) (expected : Checks) (st : CkOut)
    (h : ∀ p ∈ st.wiring, p.2 = true) :
    ∀ p ∈ (vpc3_subnets_section ec2 task_id vpc_id expected st).wiring,
      p.2 = true := by
  unfold vpc3_subnets_section
  cases hq : ec2.describe_subnets_by_vpc_tag vpc_id task_id with
  | error e => exact h
  | ok subnets => exact kinsert_true_all "subnets_in_vpc" h

/-- When its query succeeds, the subnet block records exactly the
unconditional `subnets_in_vpc = true` wiring entry. -/
theorem vpc3_subnets_section_wiring_ok (ec2 : Ec2Client)
    (task_id vpc_id : String) (expected : Checks) (st : CkOut)
    (subnets : List SubnetR)
    (h : ec2.describe_subnets_by_vpc_tag vpc_id task_id = Except.ok subnets) :
    (vpc3_subnets_section ec2 task_id vpc_id expected st).wiring =
      kinsert st.wiring "subnets_in_vpc" true := by
  unfold vpc3_subnets_section
  rw [h]

/-- The instance block never writes `false` into the wiring map. -/
theorem vpc3_instances_section_wiring_true (ec2 : Ec2Client)
    (task_id vpc_id : String) (expected : Checks) (subnet_ids : List String)
    (st : CkOut) (h : ∀ p ∈ st.wiring, p.2 = true) :
    ∀ p ∈ (vpc3_instances_section ec2 task_id vpc_id expected subnet_ids st).wiring,
      p.2 = true := by
  unfold vpc3_instances_section
  cases hq : ec2.describe_instances_by_tag_vpc task_id vpc_id with
  | error e => exact h
  | ok resvs =>
    dsimp only
    split
    · exact kinsert_true_all "instances_in_subnets" h
    · exact kinsert_true_all "instances_in_subnets" h

/-- No execution of `_check_vpc_3subnets_3ec2` ever returns a wiring entry
whose value is `false`. -/
theorem check_vpc3_wiring_all_true (ec2 : Ec2Client) (outputs : TfOutputs)
    (task_id : String) (expected : Checks) :
    ∀ p ∈ (check_vpc_3subnets_3ec2 ec2 outputs task_id expected).wiring,
      p.2 = true := by
  simp only [check_vpc_3subnets_3ec2]
  split
  · intro p hp
    simp at hp
  · split
    · intro p hp
      simp at hp
    · exact vpc3_instances_section_wiring_true _ _ _ _ _ _
        (vpc3_subnets_section_wiring_true _ _ _ _ _
          (by intro p hp; simp at hp))

/-- C10: the VPC-with-3-subnets-and-3-instances checker can never return a
false wiring entry; and when the subnet and instance queries succeed, the
`subnets_in_vpc` and `instances_in_subnets` entries are set to true
unconditionally, whatever the query results contained. -/
theorem c10_wiring_always_true (ec2 : Ec2Client) (outputs : TfOutputs)
    (task_id : String) (expected : Checks) (v : String)
    (subnets : List SubnetR) (resvs : List ReservationR) (vpcs : List String)
    (hv : getOutStr outputs "vpc_id" = some v)
    (hne : v ≠ "") (hnull : v ≠ "null")
    (hvpc : ec2.describe_vpcs [v] = Except.ok vpcs)
    (hsub : ec2.describe_subnets_by_vpc_tag v task_id = Except.ok subnets)
    (hinst : ec2.describe_instances_by_tag_vpc task_id v = Except.ok resvs) :
    (∀ (ec2' : Ec2Client) (outputs' : TfOutputs) (task_id' : String)
      (expected' : Checks),
      ∀ p ∈ (check_vpc_3subnets_3ec2 ec2' outputs' task_id' expected').wiring,
        p.2 = true) ∧
    List.lookup "subnets_in_vpc"
      (check_vpc_3subnets_3ec2 ec2 outputs task_id expected).wiring = some true ∧
    List.lookup "instances_in_subnets"
      (check_vpc_3subnets_3ec2 ec2 outputs task_id expected).wiring = some true := by
  refine ⟨check_vpc3_wiring_all_true, ?_⟩
  have hcond : ¬ (truthyStr (getOutStr outputs "vpc_id") = false ∨
      getOutStr outputs "vpc_id" = some "null") := by
    rw [hv]
    simp [truthyStr, hne, hnull]
  unfold check_vpc_3subnets_3ec2
  rw [if_neg hcond, hv]
  dsimp only [Option.getD]
  rw [hvpc]
  dsimp only
  rw [(vpc3_instances_section_props ec2 task_id v expected _ _ resvs hinst).2.2.2]
  rw [vpc3_subnets_section_wiring_ok ec2 task_id v expected _ subnets hsub]
  constructor
  · rw [lookup_kinsert_ne _ _ (by decide)]
    exact lookup_kinsert_self _ _ _
  · exact lookup_kinsert_self _ _ _

/-- The EC2 client of the C10 witness: all three queries succeed, but the
returned subnet lies outside the expected VPC. -/
def c10Ec2 : Ec2Client :=
  { noopEc2 with
    describe_vpcs := fun _ => Except.ok ["vpc-1"],
    describe_subnets_by_vpc_tag := fun _ _ => Except.ok [{ vpcId := "vpc-OTHER" }],
    describe_instances_by_tag_vpc := fun _ _ => Except.ok [] }

/-- The outputs document of the C10 witness. -/
def c10Out : TfOutputs := [("vpc_id", OutVal.s "vpc-1")]

/-- C10 witness: at a concrete client whose subnet is wired to the wrong VPC
the error is recorded, yet both wiring entries are still true. -/
theorem c10_witness :
    ((∀ (ec2' : Ec2Client) (outputs' : TfOutputs) (task_id' : String)
      (expected' : Checks),
      ∀ p ∈ (check_vpc_3subnets_3ec2 ec2' outputs' task_id' expected').wiring,
        p.2 = true) ∧
    List.lookup "subnets_in_vpc"
      (check_vpc_3subnets_3ec2 c10Ec2 c10Out "task_vpc_3subnets_3ec2" {}).wiring =
        some true ∧
    List.lookup "instances_in_subnets"
      (check_vpc_3subnets_3ec2 c10Ec2 c10Out "task_vpc_3subnets_3ec2" {}).wiring =
        some true) ∧
    "Subnet wiring error: subnet not in expected VPC" ∈
      (check_vpc_3subnets_3ec2 c10Ec2 c10Out "task_vpc_3subnets_3ec2" {}).errors :=
  ⟨c10_wiring_always_true c10Ec2 c10Out "task_vpc_3subnets_3ec2" {} "vpc-1"
      [{ vpcId := "vpc-OTHER" }] [] ["vpc-1"]
      rfl (by decide) (by decide) rfl rfl rfl,
    by decide⟩
